import Mathlib

/-! # Schemeshard: the `TDeallocatePQ` sub-operation

Shallow embedding of `ydb/core/tx/schemeshard/schemeshard__operation_deallocate_pq.cpp`.

`TDeallocatePQ::Propose`, `ProgressState`, `AbortPropose` and `AbortUnsafe` are
translated statement by statement from that file.  The classes they call into
(`TPath`, `TPath::TChecker`, `TPathElement`, `TSubDomainInfo`, `TSideEffects`,
the `Persist*` family) are declared outside that file; each of them is either
modelled from the specification (and marked so) or taken as a parameter of the
embedding (`TEnv`).
-/

namespace NKikimr.NSchemeShard

/-! ## Scalars and identifiers -/

/-- Number of values of a `ui64`. -/
def Ui64Size : Nat := 2 ^ 64

abbrev TTxId := Nat
abbrev TStepId := Nat
abbrev TTabletId := Nat

/-- Modelled from the spec: the id of a `PathNode` (§3), as owner schemeshard and local id;
`Propose` reports the `LocalPathId`. -/
structure TPathId where
  OwnerId : Nat
  LocalPathId : Nat
deriving DecidableEq, Repr

/-- Modelled from the spec: `OperationId` (§3), the pair
`(transaction id, sub-operation index)`. -/
structure TOperationId where
  TxId : TTxId
  SubTxId : Nat
deriving DecidableEq, Repr

/-- Modelled from the spec: the closed status enum of `ProposeResult` (§3, §6); the member
names are those of `NKikimrScheme::EStatus`, of which the operation itself names
`StatusAccepted`, `StatusNameConflict`, `StatusPreconditionFailed` and
`StatusMultipleModifications`. -/
inductive EStatus where
  | StatusSuccess
  | StatusAccepted
  | StatusPathDoesNotExist
  | StatusPathIsNotDirectory
  | StatusAlreadyExists
  | StatusSchemeError
  | StatusNameConflict
  | StatusInvalidParameter
  | StatusMultipleModifications
  | StatusPreconditionFailed
  | StatusRedirectDomain
deriving DecidableEq, Repr

/-! ## Path tree -/

/-- Modelled from the spec: the resource-kind tag of a `PathNode` (§3). -/
inductive EPathType where
  | Dir
  | Table
  | PersQueueGroup
  | SubDomain
  | TableIndex
  | CdcStream
deriving DecidableEq, Repr

/-- Modelled from the spec: the lifecycle of a `PathNode` (§3),
`{Created, AlteringInProgress, MarkedDeleted, Dropped}`. -/
inductive EPathState where
  | Created
  | AlteringInProgress
  | MarkedDeleted
  | Dropped
deriving DecidableEq, Repr

/-- Modelled from the spec: `PathNode` (§3): name, parent reference, child links, kind tag,
lifecycle, owning transaction of the in-flight operation, drop transaction id and
directory-alteration version.  `LastTxId`, `DropTxId`, `DirAlterVersion`, `UserAttrs` and
the alive-children counter are the members `Propose` touches; `StepDropped` is the step
handed to `SetDropped`; `DescribeCached` stands for the cached description that
`ClearDescribePathCaches` invalidates.  The id of an element is its key in `PathsById`. -/
structure TPathElement where
  Name : String
  ParentPathId : TPathId
  DomainPathId : TPathId
  Children : List (String × TPathId)
  PathType : EPathType
  PathState : EPathState
  OwningTransaction : Option TTxId
  StepDropped : TStepId
  DropTxId : TTxId
  LastTxId : TTxId
  DirAlterVersion : Nat
  AliveChildrenCount : Nat
  UserAttrs : List (String × String)
  DescribeCached : Bool
deriving DecidableEq, Repr

/-- Modelled from the spec: `isOfKind(K)` (§4.2) for the partitioned-stream group, used by
the `IsPQGroup` checker and by the drop-id report of `Propose`. -/
def TPathElement.IsPQGroup (el : TPathElement) : Bool :=
  match el.PathType with
  | .PersQueueGroup => true
  | _ => false

/-- Modelled from the spec: `isOfKind(K)` (§4.2) for the change-data-capture stream, used on
the parent. -/
def TPathElement.IsCdcStream (el : TPathElement) : Bool :=
  match el.PathType with
  | .CdcStream => true
  | _ => false

/-- Modelled from the spec: lifecycle `Dropped` (terminal). -/
def TPathElement.Dropped (el : TPathElement) : Bool :=
  match el.PathState with
  | .Dropped => true
  | _ => false

/-- Modelled from the spec: lifecycle `MarkedDeleted`, a drop is in flight for the node. -/
def TPathElement.PlannedToDrop (el : TPathElement) : Bool :=
  match el.PathState with
  | .MarkedDeleted => true
  | _ => false

/-- Modelled from the spec: `markDropped(ref, dropTxId, stepId)` (§4.1). -/
def TPathElement.SetDropped (el : TPathElement) (step : TStepId) (txId : TTxId) : TPathElement :=
  { el with PathState := .Dropped, StepDropped := step, DropTxId := txId }

/-- Modelled from the spec: "decrements the parent's live-child count"; counters must not
underflow (§3), so the decrement fails on an empty count. -/
def TPathElement.DecAliveChildren (el : TPathElement) : Option TPathElement :=
  if 1 ≤ el.AliveChildrenCount then
    some { el with AliveChildrenCount := el.AliveChildrenCount - 1 }
  else none

/-- Modelled from the spec: `child(parent, name) -> Option<PathRef>` (§4.1). -/
def TPathElement.FindChild (el : TPathElement) (name : String) : Option TPathId :=
  match el.Children.find? (fun c => c.1 == name) with
  | some c => some c.2
  | none => none

/-! ## Resource record, domain ledger, counters -/

/-- Modelled from the spec: the sub-configuration of `ResourceConfig` (§3): per-partition
write-speed limit and storage-limit-or-lifetime, as the values of the getters `Propose`
calls on the `PartitionConfig`, with `StorageLimitBytes` present or not. -/
structure TPQTabletConfig where
  WriteSpeedInBytesPerSecond : Nat
  StorageLimitBytes : Option Nat
  LifetimeSeconds : Nat
deriving DecidableEq, Repr

/-- Modelled from the spec: `ResourceConfig` (§3): partition count and serialized
sub-configuration blob; `AlterData` tells whether a pending alter is attached. -/
structure TPersQueueGroupInfo where
  TotalPartitionCount : Nat
  TabletConfig : String
  AlterData : Bool
deriving DecidableEq, Repr

/-- Modelled from the spec: `DomainInfo` (§3): object count, reserved-partition count and
reserved-storage bytes of a domain. -/
structure TSubDomainInfo where
  PathsInsideCount : Nat
  PQPartitionsInsideCount : Nat
  PQReservedStorage : Nat
deriving DecidableEq, Repr

/-- Modelled from the spec: `applyDelta` "fails with QuotaUnderflow if any resulting counter
would go negative" (§4.3); here for the object count, delta 1. -/
def TSubDomainInfo.DecPathsInside (d : TSubDomainInfo) : Option TSubDomainInfo :=
  if 1 ≤ d.PathsInsideCount then some { d with PathsInsideCount := d.PathsInsideCount - 1 }
  else none

/-- Modelled from the spec: `applyDelta` for the reserved-partition count (§4.3). -/
def TSubDomainInfo.DecPQPartitionsInside (d : TSubDomainInfo) (delta : Nat) :
    Option TSubDomainInfo :=
  if delta ≤ d.PQPartitionsInsideCount then
    some { d with PQPartitionsInsideCount := d.PQPartitionsInsideCount - delta }
  else none

/-- Modelled from the spec: `applyDelta` for the reserved-storage bytes (§4.3). -/
def TSubDomainInfo.DecPQReservedStorage (d : TSubDomainInfo) (delta : Nat) :
    Option TSubDomainInfo :=
  if delta ≤ d.PQReservedStorage then
    some { d with PQReservedStorage := d.PQReservedStorage - delta }
  else none

/-- The simple tablet counters `Propose` updates. -/
inductive ESimpleCounters where
  | COUNTER_PQ_GROUP_COUNT
  | COUNTER_STREAM_RESERVED_THROUGHPUT
  | COUNTER_STREAM_RESERVED_STORAGE
  | COUNTER_STREAM_SHARDS_COUNT
  | COUNTER_USER_ATTRIBUTES_COUNT
deriving DecidableEq, Repr

/-- Subtraction of `ui64` values, wrapping modulo `2^64`. -/
def CounterSub (value delta : Nat) : Nat :=
  (value % Ui64Size + (Ui64Size - delta % Ui64Size)) % Ui64Size

/-! ## Engine state -/

/-- Modelled from the spec: the state behind `context.SS`: the PathTree (§4.1) as
`PathsById` with its root, the resource records as `PersQueueGroups`, the Quota Ledger
(§4.3) as `SubDomains`, the simple tablet counters and the publication toggle. -/
structure TSchemeShard where
  SelfTabletId : TTabletId
  RootPathId : TPathId
  PathsById : TPathId → TPathElement
  PersQueueGroups : TPathId → Option TPersQueueGroupInfo
  SubDomains : TPathId → TSubDomainInfo
  TabletCounters : ESimpleCounters → Nat
  DisablePublicationsOfDropping : Bool

/-- In-place update of the element stored under `id`. -/
def TSchemeShard.ModifyPath (ss : TSchemeShard) (id : TPathId)
    (f : TPathElement → TPathElement) : TSchemeShard :=
  { ss with PathsById := fun k => if k = id then f (ss.PathsById k) else ss.PathsById k }

/-- In-place update of the domain record stored under `id`. -/
def TSchemeShard.SetDomain (ss : TSchemeShard) (id : TPathId) (d : TSubDomainInfo) :
    TSchemeShard :=
  { ss with SubDomains := fun k => if k = id then d else ss.SubDomains k }

/-- The statement `TabletCounters->Simple()[counter].Sub(delta)`: the counter named is
replaced by what `sub` makes of its value and `delta`; the other counters stay. -/
def TSchemeShard.SimpleSub (ss : TSchemeShard) (sub : Nat → Nat → Nat)
    (counter : ESimpleCounters) (delta : Nat) : TSchemeShard :=
  { ss with TabletCounters := fun c =>
      if c = counter then sub (ss.TabletCounters c) delta else ss.TabletCounters c }

/-- Modelled from the spec: the owning domain of a path (`ResolveDomainInfo(pathId)` looks
up `SubDomains` at this id). -/
def TSchemeShard.ResolvePathIdForDomain (ss : TSchemeShard) (pathId : TPathId) : TPathId :=
  (ss.PathsById pathId).DomainPathId

/-- Modelled from the spec: staged journal writes (`stageWrite`, §4.4, §6), one constructor
per `Persist*` call of `Propose`. -/
inductive TDbChange where
  | DropStep (pathId : TPathId) (step : TStepId) (opId : TOperationId)
  | RemovePersQueueGroup (pathId : TPathId)
  | RemoveUserAttributes (pathId : TPathId) (attrs : List (String × String))
  | PathDirAlterVersion (pathId : TPathId) (version : Nat)
deriving DecidableEq, Repr

/-- Modelled from the spec: entries of the Completion Queue (§4.6):
`PublishNamespaceChange(pathId)` and `FinalizeOperation(operationId)`. -/
inductive TSideEffect where
  | PublishToSchemeBoard (opId : TOperationId) (pathId : TPathId)
  | DoneOperation (opId : TOperationId)
deriving DecidableEq, Repr

/-- Modelled from the spec: the Operation Context (§4.4): schemeshard view, journal-write
scope and Completion Queue (FIFO, appended at the back). -/
structure TOperationContext where
  SS : TSchemeShard
  DB : List TDbChange
  OnComplete : List TSideEffect

/-- Modelled from the spec: the inbound transaction descriptor (§6): working directory (as
the list of its segments) and the name carried by `DeallocatePersQueueGroup`; `ApplyIf`
stands for the conditions that `CheckApplyIf` inspects. -/
structure TTxTransaction where
  WorkingDir : List String
  Name : String
  ApplyIf : List (TPathId × Nat)
deriving DecidableEq, Repr

/-- Modelled from the spec: `ProposeResult` (§3): status, transaction id, schemeshard id and
the optional `(pathId, dropTxId)` pair.  The explanation text is diagnostic only and is
not represented. -/
structure TProposeResponse where
  Status : EStatus
  TxId : Nat
  SchemeShardId : Nat
  PathDropTxId : Option Nat
  PathId : Option Nat
deriving DecidableEq, Repr

/-- Modelled from the spec: a rejection carries the failing status (§4.5). -/
def TProposeResponse.SetError (r : TProposeResponse) (status : EStatus) : TProposeResponse :=
  { r with Status := status }

/-- Modelled from the spec: the `dropTxId` half of the optional pair (§3). -/
def TProposeResponse.SetPathDropTxId (r : TProposeResponse) (txId : Nat) : TProposeResponse :=
  { r with PathDropTxId := some txId }

/-- Modelled from the spec: the `pathId` half of the optional pair (§3). -/
def TProposeResponse.SetPathId (r : TProposeResponse) (id : Nat) : TProposeResponse :=
  { r with PathId := some id }

/-- How a call into the sub-operation ends: it returns a response, or the process is
aborted (`Y_VERIFY`, `Y_FAIL`, a failed helper); either way with the context as it was at
that moment. -/
inductive TOutcome where
  | returned (result : TProposeResponse) (context : TOperationContext)
  | fatal (context : TOperationContext)

/-! ## Paths -/

/-- Modelled from the spec: a `PathRef` (§4.1): the requested name parts and the elements
resolved for them, root first. -/
structure TPath where
  NameParts : List String
  Elements : List TPathId
deriving DecidableEq, Repr

/-- Modelled from the spec: the predicate behind `notEmpty` (§4.2): no name was asked for. -/
def TPath.IsEmpty (p : TPath) : Bool := p.NameParts.isEmpty

/-- Modelled from the spec: the predicate behind `isResolved` (§4.2): every requested name
found its element. -/
def TPath.IsResolved (p : TPath) : Bool :=
  !p.NameParts.isEmpty && p.NameParts.length == p.Elements.length

/-- Modelled from the spec: the node a `PathRef` stands for, its last resolved element. -/
def TPath.Base (p : TPath) : Option TPathId := p.Elements.getLast?

/-- Modelled from the spec: `child(parent, name)` applied to a path: append the name, and
the child when the path was resolved so far and has such a child; the first name resolves
to the root when it is the root's name. -/
def TPath.Dive (ss : TSchemeShard) (p : TPath) (name : String) : TPath :=
  if p.NameParts.isEmpty then
    if name == (ss.PathsById ss.RootPathId).Name then
      { NameParts := [name], Elements := [ss.RootPathId] }
    else
      { NameParts := [name], Elements := [] }
  else
    match p.IsResolved, p.Base with
    | true, some last =>
      match (ss.PathsById last).FindChild name with
      | some child => { NameParts := p.NameParts ++ [name], Elements := p.Elements ++ [child] }
      | none => { NameParts := p.NameParts ++ [name], Elements := p.Elements }
    | _, _ => { NameParts := p.NameParts ++ [name], Elements := p.Elements }

/-- Modelled from the spec: `resolve(pathString)` (§4.1), on the segments of the string. -/
def TPath.Resolve (ss : TSchemeShard) (parts : List String) : TPath :=
  parts.foldl (TPath.Dive ss) { NameParts := [], Elements := [] }

/-- Modelled from the spec: the `PathRef` of the parent (§3, parent reference): the path one
level up. -/
def TPath.Parent (p : TPath) : TPath :=
  if p.IsResolved then
    { NameParts := p.NameParts.dropLast, Elements := p.Elements.dropLast }
  else
    { NameParts := p.NameParts.dropLast, Elements := p.Elements }

/-- Modelled from the spec: the `PathNode` a `PathRef` stands for, read from the current
state. -/
def TPath.BaseElement (ss : TSchemeShard) (p : TPath) : Option TPathElement :=
  match p.Base with
  | some id => some (ss.PathsById id)
  | none => none

/-- Modelled from the spec: the node is `Dropped`. -/
def TPath.IsDeleted (ss : TSchemeShard) (p : TPath) : Bool :=
  match p.BaseElement ss with
  | some el => el.Dropped
  | none => false

/-- Modelled from the spec: the node is `MarkedDeleted`. -/
def TPath.IsUnderDeleting (ss : TSchemeShard) (p : TPath) : Bool :=
  match p.BaseElement ss with
  | some el => el.PlannedToDrop
  | none => false

/-- Modelled from the spec: the node is claimed by an in-flight operation. -/
def TPath.IsUnderOperation (ss : TSchemeShard) (p : TPath) : Bool :=
  match p.BaseElement ss with
  | some el => el.OwningTransaction.isSome
  | none => false

/-- Modelled from the spec: the transaction holding the claim of the node. -/
def TPath.ActiveOperation (ss : TSchemeShard) (p : TPath) : Option TTxId :=
  match p.BaseElement ss with
  | some el => el.OwningTransaction
  | none => none

/-! ## Environment of the operation -/

/-- Default status arguments of the `TPath::TChecker` methods `Propose` calls without an
explicit status.  They are fixed by the declaration of the checker, not by the operation,
and are a parameter here. -/
structure TCheckerDefaults where
  NotEmpty : EStatus
  NotUnderDomainUpgrade : EStatus
  IsAtLocalSchemeShard : EStatus
  IsResolved : EStatus
  NotDeleted : EStatus
  NotUnderDeleting : EStatus
  NotUnderOperation : EStatus
  IsPQGroup : EStatus
  IsCdcStream : EStatus
  IsInsideCdcStreamPath : EStatus
  IsUnderTheSameOperation : EStatus
  IsLikeDirectory : EStatus
  IsCommonSensePath : EStatus
deriving DecidableEq, Repr

/-- Every default status is an error status (none of them reports acceptance). -/
def TCheckerDefaults.Rejecting (d : TCheckerDefaults) : Prop :=
  d.NotEmpty ≠ .StatusAccepted ∧ d.NotUnderDomainUpgrade ≠ .StatusAccepted ∧
  d.IsAtLocalSchemeShard ≠ .StatusAccepted ∧ d.IsResolved ≠ .StatusAccepted ∧
  d.NotDeleted ≠ .StatusAccepted ∧ d.NotUnderDeleting ≠ .StatusAccepted ∧
  d.NotUnderOperation ≠ .StatusAccepted ∧ d.IsPQGroup ≠ .StatusAccepted ∧
  d.IsCdcStream ≠ .StatusAccepted ∧ d.IsInsideCdcStreamPath ≠ .StatusAccepted ∧
  d.IsUnderTheSameOperation ≠ .StatusAccepted ∧ d.IsLikeDirectory ≠ .StatusAccepted ∧
  d.IsCommonSensePath ≠ .StatusAccepted

instance (d : TCheckerDefaults) : Decidable d.Rejecting := by
  unfold TCheckerDefaults.Rejecting; infer_instance

/-- Read-only facts about a path that the checker chain consults and that depend on parts
of the schemeshard outside this operation (domain upgrade, redirection to another
schemeshard, directory-likeness, common-sense placement, placement inside a
change-data-capture stream).  They are a parameter of the embedding. -/
structure TPathFacts where
  IsUnderDomainUpgrade : TSchemeShard → TPath → Bool
  IsAtLocalSchemeShard : TSchemeShard → TPath → Bool
  IsLikeDirectory : TSchemeShard → TPath → Bool
  IsCommonSensePath : TSchemeShard → TPath → Bool
  IsInsideCdcStreamPath : TSchemeShard → TPath → Bool

/-- Process-wide application data read by `Propose`: the time provider's current time in
milliseconds and the test-only cleanup toggle. -/
structure TAppData where
  NowMilliSeconds : Nat
  DisableSchemeShardCleanupOnDropForTest : Bool
deriving DecidableEq, Repr

/-- Everything `Propose` consults that is not defined by the operation itself: the
application data, the checker's default statuses and path facts, the `ApplyIf` test of the
schemeshard, the protobuf parser of the tablet configuration, and the arithmetic of `Sub`
on a simple tablet counter (old value and delta to new value). -/
structure TEnv where
  AppData : TAppData
  Defaults : TCheckerDefaults
  Facts : TPathFacts
  CheckApplyIf : TSchemeShard → TTxTransaction → Bool
  ParseFromStringNoSizeLimit : String → Option TPQTabletConfig
  SimpleCounterSub : Nat → Nat → Nat

/-! ## Checker chain -/

/-- Modelled from the spec: the Checker Chain (§4.2): read-only predicates composed left to
right; the chain keeps the status of the first failure. -/
structure TChecker where
  SS : TSchemeShard
  Path : TPath
  Failed : Bool
  Status : EStatus

/-- Modelled from the spec: a fresh chain for a path, `path.Check()`; `ok()` holds. -/
def TPath.Check (ss : TSchemeShard) (p : TPath) : TChecker :=
  { SS := ss, Path := p, Failed := false, Status := .StatusSuccess }

/-- Modelled from the spec: one link of the chain (§4.2): the diagnostic of the first
failure is kept, otherwise the predicate decides. -/
def TChecker.Step (c : TChecker) (ok : Bool) (status : EStatus) : TChecker :=
  if c.Failed then c
  else if ok then c
  else { c with Failed := true, Status := status }

/-- Modelled from the spec: checker `notEmpty` (§4.2). -/
def TChecker.NotEmpty (c : TChecker) (status : EStatus) : TChecker :=
  c.Step (!c.Path.IsEmpty) status

/-- Modelled from the spec: checker `notUnderDomainUpgrade` (§4.2). -/
def TChecker.NotUnderDomainUpgrade (c : TChecker) (f : TPathFacts) (status : EStatus) :
    TChecker :=
  c.Step (!f.IsUnderDomainUpgrade c.SS c.Path) status

/-- Modelled from the spec: a link of the chain (§4.2):
the path is served by this schemeshard. -/
def TChecker.IsAtLocalSchemeShard (c : TChecker) (f : TPathFacts) (status : EStatus) :
    TChecker :=
  c.Step (f.IsAtLocalSchemeShard c.SS c.Path) status

/-- Modelled from the spec: checker `isResolved` (§4.2). -/
def TChecker.IsResolved (c : TChecker) (status : EStatus) : TChecker :=
  c.Step c.Path.IsResolved status

/-- Modelled from the spec: checker `notDeleted` (§4.2). -/
def TChecker.NotDeleted (c : TChecker) (status : EStatus) : TChecker :=
  c.Step (!c.Path.IsDeleted c.SS) status

/-- Modelled from the spec: a link of the chain (§4.2):
no drop of the node is in flight. -/
def TChecker.NotUnderDeleting (c : TChecker) (status : EStatus) : TChecker :=
  c.Step (!c.Path.IsUnderDeleting c.SS) status

/-- Modelled from the spec: a link of the chain (§4.2):
a drop of the node is in flight. -/
def TChecker.IsUnderDeleting (c : TChecker) (status : EStatus) : TChecker :=
  c.Step (c.Path.IsUnderDeleting c.SS) status

/-- Modelled from the spec: checker `notUnderOperation` (§4.2). -/
def TChecker.NotUnderOperation (c : TChecker) (status : EStatus) : TChecker :=
  c.Step (!c.Path.IsUnderOperation c.SS) status

/-- Modelled from the spec: a link of the chain (§4.2):
the node is claimed by the given transaction. -/
def TChecker.IsUnderTheSameOperation (c : TChecker) (txId : TTxId) (status : EStatus) :
    TChecker :=
  c.Step (decide (c.Path.ActiveOperation c.SS = some txId)) status

/-- Modelled from the spec: checker `isOfKind(K)` for the partitioned-stream group (§4.2). -/
def TChecker.IsPQGroup (c : TChecker) (status : EStatus) : TChecker :=
  c.Step (match c.Path.BaseElement c.SS with
          | some el => el.IsPQGroup
          | none => false) status

/-- Modelled from the spec: checker `isOfKind(K)` for the change-data-capture stream (§4.2). -/
def TChecker.IsCdcStream (c : TChecker) (status : EStatus) : TChecker :=
  c.Step (match c.Path.BaseElement c.SS with
          | some el => el.IsCdcStream
          | none => false) status

/-- Modelled from the spec: a link of the chain (§4.2):
the node lies inside a change-data-capture stream path. -/
def TChecker.IsInsideCdcStreamPath (c : TChecker) (f : TPathFacts) (status : EStatus) :
    TChecker :=
  c.Step (f.IsInsideCdcStreamPath c.SS c.Path) status

/-- Modelled from the spec: checker `isLikeDirectory` (§4.2). -/
def TChecker.IsLikeDirectory (c : TChecker) (f : TPathFacts) (status : EStatus) : TChecker :=
  c.Step (f.IsLikeDirectory c.SS c.Path) status

/-- Modelled from the spec: a link of the chain (§4.2):
the node is placed where such a node may be. -/
def TChecker.IsCommonSensePath (c : TChecker) (f : TPathFacts) (status : EStatus) :
    TChecker :=
  c.Step (f.IsCommonSensePath c.SS c.Path) status

/-- A failed chain carries an error status. -/
def TChecker.Sound (c : TChecker) : Prop :=
  c.Failed = true → c.Status ≠ .StatusAccepted

/-! ## The sub-operation -/

namespace TDeallocatePQ

/-- Lines 45-55 of `Propose`: the chain run on the target path. -/
def PathChecks (env : TEnv) (ss : TSchemeShard) (path : TPath) : TChecker :=
  let d := env.Defaults
  let checks := path.Check ss
  let checks := checks.NotEmpty d.NotEmpty
  let checks := checks.NotUnderDomainUpgrade env.Facts d.NotUnderDomainUpgrade
  let checks := checks.IsAtLocalSchemeShard env.Facts d.IsAtLocalSchemeShard
  let checks := checks.IsResolved d.IsResolved
  let checks := checks.NotDeleted d.NotDeleted
  let checks := checks.NotUnderDeleting d.NotUnderDeleting
  let checks := checks.NotUnderOperation d.NotUnderOperation
  let checks := checks.IsPQGroup d.IsPQGroup
  checks.NotUnderOperation d.NotUnderOperation

/-- Lines 72-91 of `Propose`: the chain run on the parent path. -/
def ParentChecks (env : TEnv) (ss : TSchemeShard) (parent : TPath) (txId : TTxId) :
    TChecker :=
  let d := env.Defaults
  let checks := parent.Check ss
  let checks := checks.NotEmpty d.NotEmpty
  let checks := checks.IsResolved d.IsResolved
  let checks := checks.NotDeleted d.NotDeleted
  if !checks.Failed then
    match parent.BaseElement ss with
    | some base =>
      if base.IsCdcStream then
        let checks := checks.IsCdcStream d.IsCdcStream
        let checks := checks.IsInsideCdcStreamPath env.Facts d.IsInsideCdcStreamPath
        let checks := checks.IsUnderDeleting EStatus.StatusNameConflict
        checks.IsUnderTheSameOperation txId d.IsUnderTheSameOperation
      else
        let checks := checks.IsLikeDirectory env.Facts d.IsLikeDirectory
        let checks := checks.IsCommonSensePath env.Facts d.IsCommonSensePath
        checks.NotUnderDeleting d.NotUnderDeleting
    | none => checks
  else checks

/-- Lines 62-65 of `Propose`: the report of an already planned drop on a rejection. -/
def ReportPlannedDrop (ss : TSchemeShard) (path : TPath) (result : TProposeResponse) :
    TProposeResponse :=
  if path.IsResolved then
    match path.Base with
    | some id =>
      let base := ss.PathsById id
      if base.IsPQGroup && base.PlannedToDrop then
        (result.SetPathDropTxId base.DropTxId).SetPathId id.LocalPathId
      else result
    | none => result
  else result

/-- Storage reserved for a group, lines 132-140: the configured limit when present,
otherwise throughput times lifetime, in `ui64` arithmetic. -/
def Throughput (pqGroup : TPersQueueGroupInfo) (config : TPQTabletConfig) : Nat :=
  (pqGroup.TotalPartitionCount * config.WriteSpeedInBytesPerSecond) % Ui64Size

def Storage (pqGroup : TPersQueueGroupInfo) (config : TPQTabletConfig) : Nat :=
  match config.StorageLimitBytes with
  | some limit => limit
  | none => (Throughput pqGroup config * config.LifetimeSeconds) % Ui64Size

/-- Lines 161-173 of `Propose`: parent version bump, cache invalidation, publications and
completion of the operation. -/
def Finish (OperationId : TOperationId) (path : TPath) (pathId : TPathId)
    (result : TProposeResponse) (context : TOperationContext) : TOutcome :=
  let parentDir := path.Parent
  match parentDir.Base with
  | none => .fatal context
  | some parentDirId =>
    let ss := context.SS.ModifyPath parentDirId
      (fun el => { el with DirAlterVersion := (el.DirAlterVersion + 1) % Ui64Size })
    let db := context.DB ++
      [TDbChange.PathDirAlterVersion parentDirId (ss.PathsById parentDirId).DirAlterVersion]
    let ss := ss.ModifyPath parentDirId (fun el => { el with DescribeCached := false })
    let ss := ss.ModifyPath pathId (fun el => { el with DescribeCached := false })
    let onComplete :=
      if !ss.DisablePublicationsOfDropping then
        context.OnComplete ++ [TSideEffect.PublishToSchemeBoard OperationId parentDirId,
          TSideEffect.PublishToSchemeBoard OperationId pathId]
      else context.OnComplete
    let onComplete := onComplete ++ [TSideEffect.DoneOperation OperationId]
    .returned result { SS := ss, DB := db, OnComplete := onComplete }

/-- Lines 142-159 of `Propose`: domain ledger, tablet counters, parent's alive children,
staged removal of the group record and of the user attributes. -/
def Release (env : TEnv) (OperationId : TOperationId) (path parent : TPath) (pathId : TPathId)
    (pqGroup : TPersQueueGroupInfo) (config : TPQTabletConfig)
    (result : TProposeResponse) (context : TOperationContext) : TOutcome :=
  let throughput := Throughput pqGroup config
  let storage := Storage pqGroup config
  let domainId := context.SS.ResolvePathIdForDomain pathId
  match (context.SS.SubDomains domainId).DecPathsInside with
  | none => .fatal context
  | some domainInfo =>
    let context := { context with SS := context.SS.SetDomain domainId domainInfo }
    match domainInfo.DecPQPartitionsInside pqGroup.TotalPartitionCount with
    | none => .fatal context
    | some domainInfo =>
      let context := { context with SS := context.SS.SetDomain domainId domainInfo }
      match domainInfo.DecPQReservedStorage storage with
      | none => .fatal context
      | some domainInfo =>
        let ss := context.SS.SetDomain domainId domainInfo
        let ss :=
          ss.SimpleSub env.SimpleCounterSub .COUNTER_STREAM_RESERVED_THROUGHPUT throughput
        let ss := ss.SimpleSub env.SimpleCounterSub .COUNTER_STREAM_RESERVED_STORAGE storage
        let ss :=
          ss.SimpleSub env.SimpleCounterSub .COUNTER_STREAM_SHARDS_COUNT
            pqGroup.TotalPartitionCount
        let context := { context with SS := ss }
        match parent.Base with
        | none => .fatal context
        | some parentId =>
          match (context.SS.PathsById parentId).DecAliveChildren with
          | none => .fatal context
          | some parentEl =>
            let ss := context.SS.ModifyPath parentId (fun _ => parentEl)
            let db :=
              if !env.AppData.DisableSchemeShardCleanupOnDropForTest then
                context.DB ++ [TDbChange.RemovePersQueueGroup pathId]
              else context.DB
            let userAttrs := (ss.PathsById pathId).UserAttrs
            let ss :=
              ss.SimpleSub env.SimpleCounterSub .COUNTER_USER_ATTRIBUTES_COUNT userAttrs.length
            let db := db ++ [TDbChange.RemoveUserAttributes pathId userAttrs]
            Finish OperationId path pathId result
              { SS := ss, DB := db, OnComplete := context.OnComplete }

/-- The method `TDeallocatePQ::Propose` (lines 28-174).  The log line (34-38) and the
explanation text of the response have no effect on the state and are left out; a failed
`Y_VERIFY`, a failed `at()` and a failed helper end the call as `fatal`. -/
def Propose (env : TEnv) (OperationId : TOperationId) (Transaction : TTxTransaction)
    (context : TOperationContext) : TOutcome :=
  let ssId := context.SS.SelfTabletId
  let parentPathStr := Transaction.WorkingDir
  let name := Transaction.Name
  let result : TProposeResponse :=
    { Status := .StatusAccepted, TxId := OperationId.TxId, SchemeShardId := ssId,
      PathDropTxId := none, PathId := none }
  let path := (TPath.Resolve context.SS parentPathStr).Dive context.SS name
  let checks := PathChecks env context.SS path
  if checks.Failed then
    let result := result.SetError checks.Status
    .returned (ReportPlannedDrop context.SS path result) context
  else
    let parent := path.Parent
    let checks := ParentChecks env context.SS parent OperationId.TxId
    if checks.Failed then
      .returned (result.SetError checks.Status) context
    else if !env.CheckApplyIf context.SS Transaction then
      .returned (result.SetError .StatusPreconditionFailed) context
    else
      match path.Base with
      | none => .fatal context
      | some pathId =>
        match context.SS.PersQueueGroups pathId with
        | none => .fatal context
        | some pqGroup =>
          if pqGroup.AlterData then
            .returned (result.SetError .StatusMultipleModifications) context
          else
            let ss := context.SS.ModifyPath pathId
              (fun el => { el with LastTxId := OperationId.TxId })
            let fakeStep : TStepId := env.AppData.NowMilliSeconds
            let ss := ss.ModifyPath pathId (fun el => el.SetDropped fakeStep OperationId.TxId)
            let db := context.DB ++ [TDbChange.DropStep pathId fakeStep OperationId]
            let ss := ss.SimpleSub env.SimpleCounterSub .COUNTER_PQ_GROUP_COUNT 1
            let context : TOperationContext :=
              { SS := ss, DB := db, OnComplete := context.OnComplete }
            let tabletConfig := pqGroup.TabletConfig
            if tabletConfig = "" then .fatal context
            else
              match env.ParseFromStringNoSizeLimit tabletConfig with
              | none => .fatal context
              | some config =>
                Release env OperationId path parent pathId pqGroup config result context

/-- The method `ProgressState` (lines 176-178): `Y_FAIL`. -/
def ProgressState (context : TOperationContext) : TOutcome :=
  .fatal context

/-- The method `AbortPropose` (lines 180-182): `Y_FAIL`. -/
def AbortPropose (context : TOperationContext) : TOutcome :=
  .fatal context

/-- The method `AbortUnsafe` (lines 184-186): `Y_FAIL`. -/
def AbortUnsafe (_txId : TTxId) (context : TOperationContext) : TOutcome :=
  .fatal context

/-- The response `Propose` starts from (line 40). -/
def InitialResult (OperationId : TOperationId) (context : TOperationContext) :
    TProposeResponse :=
  { Status := .StatusAccepted, TxId := OperationId.TxId,
    SchemeShardId := context.SS.SelfTabletId, PathDropTxId := none, PathId := none }

/-- The target path of a transaction in a state (line 42). -/
def TargetPath (ss : TSchemeShard) (Transaction : TTxTransaction) : TPath :=
  (TPath.Resolve ss Transaction.WorkingDir).Dive ss Transaction.Name

/-! ## The accepted run in closed form

The three stages below are what lines 119-124, 142-159 and 161-172 compute when none of
the aborting guards fires; `Propose_accepted` shows that an accepted `Propose` ends in
exactly their composition. -/

/-- Lines 119-124: last transaction, drop mark, staged drop step, group counter. -/
def DropStage (env : TEnv) (OperationId : TOperationId) (pathId : TPathId)
    (context : TOperationContext) : TOperationContext :=
  let ss := context.SS.ModifyPath pathId (fun el => { el with LastTxId := OperationId.TxId })
  let ss := ss.ModifyPath pathId
    (fun el => el.SetDropped env.AppData.NowMilliSeconds OperationId.TxId)
  let ss := ss.SimpleSub env.SimpleCounterSub .COUNTER_PQ_GROUP_COUNT 1
  { SS := ss,
    DB := context.DB ++ [TDbChange.DropStep pathId env.AppData.NowMilliSeconds OperationId],
    OnComplete := context.OnComplete }

/-- Lines 142-159 when no decrement underflows. -/
def ReleaseStage (env : TEnv) (pathId parentId : TPathId) (pqGroup : TPersQueueGroupInfo)
    (config : TPQTabletConfig) (context : TOperationContext) : TOperationContext :=
  let domainId := context.SS.ResolvePathIdForDomain pathId
  let d0 := context.SS.SubDomains domainId
  let d1 := { d0 with PathsInsideCount := d0.PathsInsideCount - 1 }
  let d2 := { d1 with
    PQPartitionsInsideCount := d1.PQPartitionsInsideCount - pqGroup.TotalPartitionCount }
  let d3 := { d2 with PQReservedStorage := d2.PQReservedStorage - Storage pqGroup config }
  let ss := ((context.SS.SetDomain domainId d1).SetDomain domainId d2).SetDomain domainId d3
  let ss := ss.SimpleSub env.SimpleCounterSub .COUNTER_STREAM_RESERVED_THROUGHPUT
    (Throughput pqGroup config)
  let ss := ss.SimpleSub env.SimpleCounterSub .COUNTER_STREAM_RESERVED_STORAGE
    (Storage pqGroup config)
  let ss := ss.SimpleSub env.SimpleCounterSub .COUNTER_STREAM_SHARDS_COUNT
    pqGroup.TotalPartitionCount
  let parentEl := ss.PathsById parentId
  let ss := ss.ModifyPath parentId
    (fun _ => { parentEl with AliveChildrenCount := parentEl.AliveChildrenCount - 1 })
  let db :=
    if !env.AppData.DisableSchemeShardCleanupOnDropForTest then
      context.DB ++ [TDbChange.RemovePersQueueGroup pathId]
    else context.DB
  let userAttrs := (ss.PathsById pathId).UserAttrs
  let ss := ss.SimpleSub env.SimpleCounterSub .COUNTER_USER_ATTRIBUTES_COUNT userAttrs.length
  { SS := ss, DB := db ++ [TDbChange.RemoveUserAttributes pathId userAttrs],
    OnComplete := context.OnComplete }

/-- Lines 161-172. -/
def FinishStage (OperationId : TOperationId) (pathId parentDirId : TPathId)
    (context : TOperationContext) : TOperationContext :=
  let ss := context.SS.ModifyPath parentDirId
    (fun el => { el with DirAlterVersion := (el.DirAlterVersion + 1) % Ui64Size })
  let db := context.DB ++
    [TDbChange.PathDirAlterVersion parentDirId (ss.PathsById parentDirId).DirAlterVersion]
  let ss := ss.ModifyPath parentDirId (fun el => { el with DescribeCached := false })
  let ss := ss.ModifyPath pathId (fun el => { el with DescribeCached := false })
  let onComplete :=
    if !ss.DisablePublicationsOfDropping then
      context.OnComplete ++ [TSideEffect.PublishToSchemeBoard OperationId parentDirId,
        TSideEffect.PublishToSchemeBoard OperationId pathId]
    else context.OnComplete
  { SS := ss, DB := db, OnComplete := onComplete ++ [TSideEffect.DoneOperation OperationId] }

/-- The context of an accepted run. -/
def AcceptedContext (env : TEnv) (OperationId : TOperationId) (pathId parentId : TPathId)
    (pqGroup : TPersQueueGroupInfo) (config : TPQTabletConfig)
    (context : TOperationContext) : TOperationContext :=
  FinishStage OperationId pathId parentId
    (ReleaseStage env pathId parentId pqGroup config (DropStage env OperationId pathId context))

/-- The quota guards of the domain decrements, read in the state before the call. -/
def QuotaCovers (ss : TSchemeShard) (pathId : TPathId) (pqGroup : TPersQueueGroupInfo)
    (config : TPQTabletConfig) : Prop :=
  let d := ss.SubDomains (ss.ResolvePathIdForDomain pathId)
  1 ≤ d.PathsInsideCount ∧ pqGroup.TotalPartitionCount ≤ d.PQPartitionsInsideCount ∧
    Storage pqGroup config ≤ d.PQReservedStorage

instance (ss : TSchemeShard) (pathId : TPathId) (pqGroup : TPersQueueGroupInfo)
    (config : TPQTabletConfig) : Decidable (QuotaCovers ss pathId pqGroup config) := by
  unfold QuotaCovers; infer_instance

/-- The validation of lines 44-130 passed: both chains, `ApplyIf`, the group record exists
without pending alter, and its configuration is non-empty and parses. -/
def Validated (env : TEnv) (OperationId : TOperationId) (Transaction : TTxTransaction)
    (context : TOperationContext) (pathId : TPathId) (pqGroup : TPersQueueGroupInfo)
    (config : TPQTabletConfig) : Prop :=
  (TargetPath context.SS Transaction).Base = some pathId ∧
  (PathChecks env context.SS (TargetPath context.SS Transaction)).Failed = false ∧
  (ParentChecks env context.SS (TargetPath context.SS Transaction).Parent
    OperationId.TxId).Failed = false ∧
  env.CheckApplyIf context.SS Transaction = true ∧
  context.SS.PersQueueGroups pathId = some pqGroup ∧
  pqGroup.AlterData = false ∧
  pqGroup.TabletConfig ≠ "" ∧
  env.ParseFromStringNoSizeLimit pqGroup.TabletConfig = some config

/-- Everything an accepted run needs: the validation passed and no decrement underflows. -/
def Accepts (env : TEnv) (OperationId : TOperationId) (Transaction : TTxTransaction)
    (context : TOperationContext) (pathId parentId : TPathId) (pqGroup : TPersQueueGroupInfo)
    (config : TPQTabletConfig) : Prop :=
  Validated env OperationId Transaction context pathId pqGroup config ∧
  (TargetPath context.SS Transaction).Parent.Base = some parentId ∧
  QuotaCovers context.SS pathId pqGroup config ∧
  1 ≤ (context.SS.PathsById parentId).AliveChildrenCount

end TDeallocatePQ

/-- The response of a call that returned. -/
def TOutcome.Result? : TOutcome → Option TProposeResponse
  | .returned result _ => some result
  | .fatal _ => none

/-- The context a call ended with. -/
def TOutcome.Context : TOutcome → TOperationContext
  | .returned _ context => context
  | .fatal context => context

/-! ## A concrete schemeshard

A root directory `/MyRoot` holding one stream group `Topic`, used to run the operation
on explicit inputs. -/

namespace Scenario

def RootId : TPathId := { OwnerId := 1, LocalPathId := 1 }

def TopicId : TPathId := { OwnerId := 1, LocalPathId := 2 }

def Root : TPathElement :=
  { Name := "MyRoot", ParentPathId := RootId, DomainPathId := RootId,
    Children := [("Topic", TopicId)], PathType := .Dir, PathState := .Created,
    OwningTransaction := none, StepDropped := 0, DropTxId := 0, LastTxId := 0,
    DirAlterVersion := 3, AliveChildrenCount := 1, UserAttrs := [], DescribeCached := true }

def Topic : TPathElement :=
  { Name := "Topic", ParentPathId := RootId, DomainPathId := RootId,
    Children := [], PathType := .PersQueueGroup, PathState := .Created,
    OwningTransaction := none, StepDropped := 0, DropTxId := 0, LastTxId := 0,
    DirAlterVersion := 0, AliveChildrenCount := 0, UserAttrs := [("owner", "team")],
    DescribeCached := true }

/-- The group record: 2 partitions. -/
def Group : TPersQueueGroupInfo :=
  { TotalPartitionCount := 2, TabletConfig := "cfg", AlterData := false }

/-- The parsed configuration: write speed 100 B/s, lifetime 5 s, no storage limit. -/
def Config : TPQTabletConfig :=
  { WriteSpeedInBytesPerSecond := 100, StorageLimitBytes := none, LifetimeSeconds := 5 }

/-- The state, given the root element, the topic element and the domain record. -/
def Shard (root topic : TPathElement) (domain : TSubDomainInfo) (noPublish : Bool) :
    TSchemeShard :=
  { SelfTabletId := 100, RootPathId := RootId,
    PathsById := fun k => if k = TopicId then topic else root,
    PersQueueGroups := fun k => if k = TopicId then some Group else none,
    SubDomains := fun _ => domain,
    TabletCounters := fun _ => 10000,
    DisablePublicationsOfDropping := noPublish }

def Context (root topic : TPathElement) (domain : TSubDomainInfo) (noPublish : Bool) :
    TOperationContext :=
  { SS := Shard root topic domain noPublish, DB := [], OnComplete := [] }

/-- Default statuses: absent paths report `StatusPathDoesNotExist`, kind mismatches
`StatusNameConflict`, in-flight operations `StatusMultipleModifications`, a non-directory
parent `StatusPathIsNotDirectory`, redirection `StatusRedirectDomain`. -/
def Defaults : TCheckerDefaults :=
  { NotEmpty := .StatusPathDoesNotExist,
    NotUnderDomainUpgrade := .StatusMultipleModifications,
    IsAtLocalSchemeShard := .StatusRedirectDomain,
    IsResolved := .StatusPathDoesNotExist,
    NotDeleted := .StatusPathDoesNotExist,
    NotUnderDeleting := .StatusMultipleModifications,
    NotUnderOperation := .StatusMultipleModifications,
    IsPQGroup := .StatusNameConflict,
    IsCdcStream := .StatusNameConflict,
    IsInsideCdcStreamPath := .StatusNameConflict,
    IsUnderTheSameOperation := .StatusMultipleModifications,
    IsLikeDirectory := .StatusPathIsNotDirectory,
    IsCommonSensePath := .StatusNameConflict }

/-- No domain upgrade, everything local, every parent directory-like and well placed. -/
def Facts : TPathFacts :=
  { IsUnderDomainUpgrade := fun _ _ => false,
    IsAtLocalSchemeShard := fun _ _ => true,
    IsLikeDirectory := fun _ _ => true,
    IsCommonSensePath := fun _ _ => true,
    IsInsideCdcStreamPath := fun _ _ => true }

def Env : TEnv :=
  { AppData := { NowMilliSeconds := 1700, DisableSchemeShardCleanupOnDropForTest := false },
    Defaults := Defaults,
    Facts := Facts,
    CheckApplyIf := fun _ _ => true,
    ParseFromStringNoSizeLimit := fun blob => if blob = "cfg" then some Config else none,
    SimpleCounterSub := CounterSub }

/-- The proposing operation: transaction 9, part 0. -/
def Op : TOperationId := { TxId := 9, SubTxId := 0 }

/-- Deallocate `/MyRoot/Topic`. -/
def Tx : TTxTransaction := { WorkingDir := ["MyRoot"], Name := "Topic", ApplyIf := [] }

/-- Deallocate `/MyRoot/Absent`. -/
def TxAbsent : TTxTransaction := { WorkingDir := ["MyRoot"], Name := "Absent", ApplyIf := [] }

/-- The domain of the worked scenario: 5 objects, 2 partitions, 1000 bytes reserved. -/
def Domain : TSubDomainInfo :=
  { PathsInsideCount := 5, PQPartitionsInsideCount := 2, PQReservedStorage := 1000 }

/-- The topic after a finished drop by transaction 7. -/
def TopicDropped : TPathElement :=
  { Topic with PathState := .Dropped, StepDropped := 1500, DropTxId := 7, LastTxId := 7 }

/-- The topic while transaction 7 is dropping it. -/
def TopicDropping : TPathElement :=
  { Topic with PathState := .MarkedDeleted, OwningTransaction := some 7, DropTxId := 7,
               LastTxId := 7 }

/-- The topic while transaction 7 is altering it. -/
def TopicAltering : TPathElement :=
  { Topic with PathState := .AlteringInProgress, OwningTransaction := some 7, LastTxId := 7 }

/-- The root directory while transaction 7 is deleting it. -/
def RootDeleting : TPathElement :=
  { Root with PathState := .MarkedDeleted, OwningTransaction := some 7, DropTxId := 7 }

/-- A change-data-capture stream as parent, while transaction 7 is deleting it. -/
def StreamDeleting : TPathElement :=
  { RootDeleting with PathType := .CdcStream }

/-- A domain whose reserved storage (500 bytes) is below the 1000 bytes of the group. -/
def DomainLow : TSubDomainInfo :=
  { PathsInsideCount := 5, PQPartitionsInsideCount := 2, PQReservedStorage := 500 }

/-- A change-data-capture stream as parent, while the proposing transaction 9 itself is
deleting it. -/
def StreamDeletingByOp : TPathElement :=
  { StreamDeleting with OwningTransaction := some 9, DropTxId := 9 }

/-- The root directory with the largest `ui64` as directory-alteration version. -/
def RootLastVersion : TPathElement :=
  { Root with DirAlterVersion := 18446744073709551615 }

end Scenario

/-- The environment with `AppData()->DisableSchemeShardCleanupOnDropForTest` put to the given
value and everything else as it is. -/
def TEnv.WithCleanupDisabled (env : TEnv) (disabled : Bool) : TEnv :=
  { env with AppData :=
      { env.AppData with DisableSchemeShardCleanupOnDropForTest := disabled } }

end NKikimr.NSchemeShard

/-! # Coordinator: the test-only hooks slot

Shallow embedding of `ydb/core/tx/coordinator/coordinator_hooks.cpp`.  The slot is a
process-wide atomic pointer; the embedding is sequential, every load sees the last store.
-/

namespace NKikimr.NFlatTxCoordinator

/-- An `ICoordinatorHooks` object, named by its address.  A reference (`ICoordinatorHooks&`)
always names an object; a pointer is an `Option`, `nullptr` being `none`. -/
abbrev THooks := Nat

/-- The process-wide slot `CoordinatorHooks` (line 8). -/
structure TSlot where
  CoordinatorHooks : Option THooks
deriving DecidableEq, Repr

/-- The slot as initialised at line 8: `nullptr`. -/
def TSlot.Empty : TSlot := { CoordinatorHooks := none }

/-- The method `ICoordinatorHooks::Get` (lines 17-19). -/
def ICoordinatorHooks.Get (slot : TSlot) : Option THooks :=
  slot.CoordinatorHooks

/-- The method `ICoordinatorHooks::Set` (lines 21-23). -/
def ICoordinatorHooks.Set (_slot : TSlot) (hooks : Option THooks) : TSlot :=
  { CoordinatorHooks := hooks }

/-- The constructor of `TCoordinatorHooksGuard` (lines 25-29); `none` when the `Y_VERIFY`
aborts the process. -/
def TCoordinatorHooksGuard.Construct (slot : TSlot) (hooks : THooks) : Option TSlot :=
  let current := ICoordinatorHooks.Get slot
  match current with
  | some _ => none
  | none => some (ICoordinatorHooks.Set slot (some hooks))

/-- The destructor of `TCoordinatorHooksGuard` (lines 31-33). -/
def TCoordinatorHooksGuard.Destroy (slot : TSlot) : TSlot :=
  ICoordinatorHooks.Set slot none

/-- One step in the life of the guards of a process: a guard is constructed for a hooks
object, or the live guard at a position is destroyed. -/
inductive TGuardEvent where
  | construct (hooks : THooks)
  | destroy (position : Nat)
deriving DecidableEq, Repr

/-- The slot together with the guards that were constructed and not yet destroyed, each
named by the hooks object it was constructed for. -/
structure TGuards where
  Slot : TSlot
  Live : List THooks
deriving DecidableEq, Repr

/-- A process in which no guard was constructed yet. -/
def TGuards.Start : TGuards := { Slot := TSlot.Empty, Live := [] }

/-- The effect of one event; `none` when the constructor aborts the process, and when a
guard is named that does not exist. -/
def TGuards.Step (g : TGuards) : TGuardEvent → Option TGuards
  | .construct hooks =>
    match TCoordinatorHooksGuard.Construct g.Slot hooks with
    | some slot => some { Slot := slot, Live := hooks :: g.Live }
    | none => none
  | .destroy position =>
    if position < g.Live.length then
      some { Slot := TCoordinatorHooksGuard.Destroy g.Slot, Live := g.Live.eraseIdx position }
    else none

/-- The effect of a sequence of events, as far as the process lives. -/
def TGuards.Run (g : TGuards) : List TGuardEvent → Option TGuards
  | [] => some g
  | event :: events =>
    match g.Step event with
    | some g' => g'.Run events
    | none => none

end NKikimr.NFlatTxCoordinator

namespace NKikimr.NSchemeShard

/-! ## Facts about the checker chain -/

theorem TChecker.Step_Failed (c : TChecker) (ok : Bool) (status : EStatus) :
    (c.Step ok status).Failed = (c.Failed || !ok) := by
  unfold TChecker.Step
  cases hf : c.Failed <;> cases ok <;> simp [hf]

theorem TChecker.Step_SS (c : TChecker) (ok : Bool) (status : EStatus) :
    (c.Step ok status).SS = c.SS := by
  unfold TChecker.Step
  split
  · rfl
  · split <;> rfl

theorem TChecker.Step_Path (c : TChecker) (ok : Bool) (status : EStatus) :
    (c.Step ok status).Path = c.Path := by
  unfold TChecker.Step
  split
  · rfl
  · split <;> rfl

theorem TChecker.Step_Sound {c : TChecker} (hc : c.Sound) (ok : Bool) {status : EStatus}
    (hs : status ≠ .StatusAccepted) : (c.Step ok status).Sound := by
  unfold TChecker.Step
  split
  · exact hc
  · split
    · exact hc
    · intro _; exact hs

theorem TPath.Check_Sound (ss : TSchemeShard) (p : TPath) : (p.Check ss).Sound := by
  intro h; cases h

namespace TDeallocatePQ

theorem PathChecks_Sound {env : TEnv} (hd : env.Defaults.Rejecting) (ss : TSchemeShard)
    (path : TPath) : (PathChecks env ss path).Sound := by
  obtain ⟨h1, h2, h3, h4, h5, h6, h7, h8, -⟩ := hd
  unfold PathChecks
  exact TChecker.Step_Sound (TChecker.Step_Sound (TChecker.Step_Sound (TChecker.Step_Sound
    (TChecker.Step_Sound (TChecker.Step_Sound (TChecker.Step_Sound (TChecker.Step_Sound
    (TChecker.Step_Sound (TPath.Check_Sound ss path) _ h1) _ h2) _ h3) _ h4) _ h5) _ h6) _ h7)
    _ h8) _ h7

theorem ParentChecks_Sound {env : TEnv} (hd : env.Defaults.Rejecting) (ss : TSchemeShard)
    (parent : TPath) (txId : TTxId) : (ParentChecks env ss parent txId).Sound := by
  obtain ⟨h1, -, -, h4, h5, h6, -, -, h9, h10, h11, h12, h13⟩ := hd
  have h0 : (((parent.Check ss).NotEmpty env.Defaults.NotEmpty).IsResolved
      env.Defaults.IsResolved).NotDeleted env.Defaults.NotDeleted |>.Sound :=
    TChecker.Step_Sound (TChecker.Step_Sound
      (TChecker.Step_Sound (TPath.Check_Sound ss parent) _ h1) _ h4) _ h5
  unfold ParentChecks
  dsimp only
  split
  · split
    · split
      · exact TChecker.Step_Sound (TChecker.Step_Sound (TChecker.Step_Sound
          (TChecker.Step_Sound h0 _ h9) _ h10) _ (by decide)) _ h11
      · exact TChecker.Step_Sound (TChecker.Step_Sound (TChecker.Step_Sound h0 _ h12) _ h13)
          _ h6
    · exact h0
  · exact h0

/-- The target chain passes exactly when each of its predicates holds. -/
theorem PathChecks_Failed (env : TEnv) (ss : TSchemeShard) (path : TPath) :
    (PathChecks env ss path).Failed =
      !(!path.IsEmpty && !env.Facts.IsUnderDomainUpgrade ss path &&
        env.Facts.IsAtLocalSchemeShard ss path && path.IsResolved && !path.IsDeleted ss &&
        !path.IsUnderDeleting ss && !path.IsUnderOperation ss &&
        (match path.BaseElement ss with
          | some el => el.IsPQGroup
          | none => false)) := by
  simp only [PathChecks, TChecker.NotEmpty, TChecker.NotUnderDomainUpgrade,
    TChecker.IsAtLocalSchemeShard, TChecker.IsResolved, TChecker.NotDeleted,
    TChecker.NotUnderDeleting, TChecker.NotUnderOperation, TChecker.IsPQGroup,
    TChecker.Step_Failed, TChecker.Step_SS, TChecker.Step_Path, TPath.Check]
  generalize path.IsEmpty = b1
  generalize env.Facts.IsUnderDomainUpgrade ss path = b2
  generalize env.Facts.IsAtLocalSchemeShard ss path = b3
  generalize path.IsResolved = b4
  generalize path.IsDeleted ss = b5
  generalize path.IsUnderDeleting ss = b6
  generalize path.IsUnderOperation ss = b7
  generalize (match path.BaseElement ss with
    | some el => el.IsPQGroup
    | none => false) = b8
  cases b1 <;> cases b2 <;> cases b3 <;> cases b4 <;> cases b5 <;> cases b6 <;> cases b7 <;>
    cases b8 <;> rfl

/-! ## Facts about the stages of `Propose` -/

theorem Finish_returned_result {OperationId : TOperationId} {path : TPath} {pathId : TPathId}
    {result r : TProposeResponse} {c c' : TOperationContext}
    (h : Finish OperationId path pathId result c = .returned r c') : r = result := by
  unfold Finish at h
  dsimp only at h
  split at h
  · cases h
  · simp only [TOutcome.returned.injEq] at h
    exact h.1.symm

theorem Release_returned_result {env : TEnv} {OperationId : TOperationId} {path parent : TPath}
    {pathId : TPathId} {pqGroup : TPersQueueGroupInfo} {config : TPQTabletConfig}
    {result r : TProposeResponse} {c c' : TOperationContext}
    (h : Release env OperationId path parent pathId pqGroup config result c = .returned r c') :
    r = result := by
  unfold Release at h
  dsimp only at h
  repeat' split at h
  all_goals first
    | cases h
    | exact Finish_returned_result h

/-- A response that is not `StatusAccepted` comes from one of the four early returns, all of
which hand back the context they were given. -/
theorem Propose_returned_not_accepted {env : TEnv} {OperationId : TOperationId}
    {Transaction : TTxTransaction} {context context' : TOperationContext}
    {r : TProposeResponse}
    (h : Propose env OperationId Transaction context = .returned r context')
    (hr : r.Status ≠ .StatusAccepted) : context' = context := by
  unfold Propose at h
  dsimp only at h
  repeat' split at h
  all_goals first
    | (exfalso; apply hr; rw [Release_returned_result h])
    | (cases h; rfl)
    | cases h

theorem Finish_returned {OperationId : TOperationId} {path : TPath} {pathId : TPathId}
    {result r : TProposeResponse} {c c' : TOperationContext}
    (h : Finish OperationId path pathId result c = .returned r c') :
    ∃ parentDirId, path.Parent.Base = some parentDirId ∧ r = result ∧
      c' = FinishStage OperationId pathId parentDirId c := by
  unfold Finish at h
  dsimp only at h
  split at h
  · cases h
  · rename_i parentDirId hb
    cases h
    exact ⟨parentDirId, hb, rfl, rfl⟩

theorem Release_returned {env : TEnv} {OperationId : TOperationId} {path parent : TPath}
    {pathId : TPathId} {pqGroup : TPersQueueGroupInfo} {config : TPQTabletConfig}
    {result r : TProposeResponse} {c c' : TOperationContext}
    (h : Release env OperationId path parent pathId pqGroup config result c = .returned r c') :
    ∃ parentId parentDirId, parent.Base = some parentId ∧
      path.Parent.Base = some parentDirId ∧ r = result ∧
      QuotaCovers c.SS pathId pqGroup config ∧
      1 ≤ (c.SS.PathsById parentId).AliveChildrenCount ∧
      c' = FinishStage OperationId pathId parentDirId
        (ReleaseStage env pathId parentId pqGroup config c) := by
  unfold Release at h
  dsimp only at h
  split at h
  · cases h
  rename_i d1 h1
  split at h
  · cases h
  rename_i d2 h2
  split at h
  · cases h
  rename_i d3 h3
  split at h
  · cases h
  rename_i parentId hp
  split at h
  · cases h
  rename_i parentEl he
  obtain ⟨parentDirId, hpd, hr, hc⟩ := Finish_returned h
  simp only [TSubDomainInfo.DecPathsInside] at h1
  split at h1
  case isFalse => cases h1
  rename_i g1
  cases h1
  simp only [TSubDomainInfo.DecPQPartitionsInside] at h2
  split at h2
  case isFalse => cases h2
  rename_i g2
  cases h2
  simp only [TSubDomainInfo.DecPQReservedStorage] at h3
  split at h3
  case isFalse => cases h3
  rename_i g3
  cases h3
  simp only [TPathElement.DecAliveChildren] at he
  split at he
  case isFalse => cases he
  rename_i g4
  cases he
  refine ⟨parentId, parentDirId, hp, hpd, hr, ⟨g1, g2, g3⟩, g4, ?_⟩
  rw [hc]
  rfl

theorem ReportPlannedDrop_Status (ss : TSchemeShard) (path : TPath) (r : TProposeResponse) :
    (ReportPlannedDrop ss path r).Status = r.Status := by
  unfold ReportPlannedDrop
  split
  · split
    · dsimp only
      split <;> rfl
    · rfl
  · rfl

theorem DropStage_QuotaCovers {env : TEnv} {OperationId : TOperationId} {pathId : TPathId}
    {pqGroup : TPersQueueGroupInfo} {config : TPQTabletConfig} {context : TOperationContext}
    (h : QuotaCovers (DropStage env OperationId pathId context).SS pathId pqGroup config) :
    QuotaCovers context.SS pathId pqGroup config := by
  simpa [QuotaCovers, DropStage, TSchemeShard.ResolvePathIdForDomain, TSchemeShard.ModifyPath,
    TSchemeShard.SimpleSub, TPathElement.SetDropped] using h

theorem DropStage_AliveChildrenCount (env : TEnv) (OperationId : TOperationId)
    (pathId k : TPathId) (context : TOperationContext) :
    ((DropStage env OperationId pathId context).SS.PathsById k).AliveChildrenCount =
      (context.SS.PathsById k).AliveChildrenCount := by
  simp only [DropStage, TSchemeShard.ModifyPath, TSchemeShard.SimpleSub,
    TPathElement.SetDropped]
  split <;> rfl

/-- An accepted `Propose` passed every guard and ends in `AcceptedContext`. -/
theorem Propose_accepted {env : TEnv} {OperationId : TOperationId}
    {Transaction : TTxTransaction} {context context' : TOperationContext}
    {r : TProposeResponse} (hd : env.Defaults.Rejecting)
    (h : Propose env OperationId Transaction context = .returned r context')
    (hacc : r.Status = .StatusAccepted) :
    ∃ pathId parentId pqGroup config,
      Accepts env OperationId Transaction context pathId parentId pqGroup config ∧
      r = InitialResult OperationId context ∧
      context' = AcceptedContext env OperationId pathId parentId pqGroup config context := by
  unfold Propose at h
  dsimp only at h
  split at h
  · rename_i hf
    cases h
    rw [ReportPlannedDrop_Status] at hacc
    exact absurd hacc (PathChecks_Sound hd _ _ hf)
  rename_i hpath
  split at h
  · rename_i hf
    cases h
    exact absurd hacc (ParentChecks_Sound hd _ _ _ hf)
  rename_i hparent
  split at h
  · cases h
    cases hacc
  rename_i happly
  split at h
  · cases h
  rename_i pathId hbase
  split at h
  · cases h
  rename_i pqGroup hpq
  split at h
  · cases h
    cases hacc
  rename_i halter
  split at h
  · cases h
  rename_i hcfg
  split at h
  · cases h
  rename_i config hparse
  obtain ⟨parentId, parentDirId, hp, hpd, hr, hq, ha, hc⟩ := Release_returned h
  have hsame : parentDirId = parentId := by
    rw [hp] at hpd
    exact (Option.some.inj hpd).symm
  subst hsame
  refine ⟨pathId, parentDirId, pqGroup, config, ⟨⟨hbase, ?_, ?_, ?_, hpq, ?_, hcfg, hparse⟩, hp,
    DropStage_QuotaCovers hq, ?_⟩, hr, hc⟩
  · simpa using hpath
  · simpa using hparent
  · simpa using happly
  · simpa using halter
  · rw [← DropStage_AliveChildrenCount env OperationId pathId parentDirId context]
    exact ha

/-! ## Projections of the accepted context -/

theorem AcceptedContext_SubDomains (env : TEnv) (OperationId : TOperationId)
    (pathId parentId : TPathId) (pqGroup : TPersQueueGroupInfo) (config : TPQTabletConfig)
    (context : TOperationContext) :
    (AcceptedContext env OperationId pathId parentId pqGroup config context).SS.SubDomains
        (context.SS.ResolvePathIdForDomain pathId) =
      { PathsInsideCount :=
          (context.SS.SubDomains (context.SS.ResolvePathIdForDomain pathId)).PathsInsideCount - 1,
        PQPartitionsInsideCount :=
          (context.SS.SubDomains
            (context.SS.ResolvePathIdForDomain pathId)).PQPartitionsInsideCount -
              pqGroup.TotalPartitionCount,
        PQReservedStorage :=
          (context.SS.SubDomains (context.SS.ResolvePathIdForDomain pathId)).PQReservedStorage -
            Storage pqGroup config } := by
  simp [AcceptedContext, FinishStage, ReleaseStage, DropStage, TSchemeShard.ModifyPath,
    TSchemeShard.SetDomain, TSchemeShard.SimpleSub, TSchemeShard.ResolvePathIdForDomain,
    TPathElement.SetDropped]

theorem AcceptedContext_OnComplete (env : TEnv) (OperationId : TOperationId)
    (pathId parentId : TPathId) (pqGroup : TPersQueueGroupInfo) (config : TPQTabletConfig)
    (context : TOperationContext) :
    (AcceptedContext env OperationId pathId parentId pqGroup config context).OnComplete =
      context.OnComplete ++
        (if context.SS.DisablePublicationsOfDropping then []
          else [TSideEffect.PublishToSchemeBoard OperationId parentId,
            TSideEffect.PublishToSchemeBoard OperationId pathId]) ++
        [TSideEffect.DoneOperation OperationId] := by
  simp only [AcceptedContext, FinishStage, ReleaseStage, DropStage, TSchemeShard.ModifyPath,
    TSchemeShard.SetDomain, TSchemeShard.SimpleSub]
  cases context.SS.DisablePublicationsOfDropping <;> simp

/-- Shared core of the ledger claims: after an accepted `Propose` the record of the owning
domain is the old one with 1, `TotalPartitionCount` and `Storage` taken off, none of the
three subtractions truncating. -/
theorem Propose_accepted_domain {env : TEnv} {OperationId : TOperationId}
    {Transaction : TTxTransaction} {context context' : TOperationContext}
    {r : TProposeResponse} (hd : env.Defaults.Rejecting)
    (h : Propose env OperationId Transaction context = .returned r context')
    (hacc : r.Status = .StatusAccepted) :
    ∃ pathId pqGroup config,
      (TargetPath context.SS Transaction).Base = some pathId ∧
      context.SS.PersQueueGroups pathId = some pqGroup ∧
      env.ParseFromStringNoSizeLimit pqGroup.TabletConfig = some config ∧
      QuotaCovers context.SS pathId pqGroup config ∧
      context'.SS.SubDomains (context.SS.ResolvePathIdForDomain pathId) =
        { PathsInsideCount :=
            (context.SS.SubDomains
              (context.SS.ResolvePathIdForDomain pathId)).PathsInsideCount - 1,
          PQPartitionsInsideCount :=
            (context.SS.SubDomains
              (context.SS.ResolvePathIdForDomain pathId)).PQPartitionsInsideCount -
                pqGroup.TotalPartitionCount,
          PQReservedStorage :=
            (context.SS.SubDomains
              (context.SS.ResolvePathIdForDomain pathId)).PQReservedStorage -
                Storage pqGroup config } := by
  obtain ⟨pathId, parentId, pqGroup, config, hA, -, hc⟩ := Propose_accepted hd h hacc
  obtain ⟨⟨hbase, -, -, -, hpq, -, -, hparse⟩, -, hq, -⟩ := hA
  refine ⟨pathId, pqGroup, config, hbase, hpq, hparse, hq, ?_⟩
  rw [hc]
  exact AcceptedContext_SubDomains env OperationId pathId parentId pqGroup config context

/-! ## The claims -/

/-- C1. If `TDeallocatePQ::Propose` returns a status other than `StatusAccepted` (a failed
target-path chain, a failed parent-path chain, a failed `ApplyIf`, or a pending `AlterData`
on the group), the context it hands back is the one it was given: the path tree, the
domain counters, the tablet counters, the staged journal writes and the completion queue
all equal their values before the call. -/
theorem C1_rejected_propose_keeps_state (env : TEnv) (OperationId : TOperationId)
    (Transaction : TTxTransaction) (context context' : TOperationContext)
    (r : TProposeResponse)
    (h : Propose env OperationId Transaction context = .returned r context')
    (hr : r.Status ≠ .StatusAccepted) :
    context' = context ∧
      context'.SS.PathsById = context.SS.PathsById ∧
      context'.SS.SubDomains = context.SS.SubDomains ∧
      context'.SS.TabletCounters = context.SS.TabletCounters ∧
      context'.DB = context.DB ∧
      context'.OnComplete = context.OnComplete := by
  have hc : context' = context := Propose_returned_not_accepted h hr
  subst hc
  exact ⟨rfl, rfl, rfl, rfl, rfl, rfl⟩

/-- C1, on an input: deallocating the absent `/MyRoot/Absent` is rejected with the
status of `IsResolved` and leaves the context as it was. -/
theorem C1_rejected_propose_keeps_state_witness :
    Propose Scenario.Env Scenario.Op Scenario.TxAbsent
        (Scenario.Context Scenario.Root Scenario.Topic Scenario.Domain false) =
      .returned
        { Status := .StatusPathDoesNotExist, TxId := 9, SchemeShardId := 100,
          PathDropTxId := none, PathId := none }
        (Scenario.Context Scenario.Root Scenario.Topic Scenario.Domain false) ∧
    EStatus.StatusPathDoesNotExist ≠ EStatus.StatusAccepted ∧
    (Scenario.Context Scenario.Root Scenario.Topic Scenario.Domain false).DB =
      (Scenario.Context Scenario.Root Scenario.Topic Scenario.Domain false).DB :=
  ⟨rfl, by decide,
    (C1_rejected_propose_keeps_state Scenario.Env Scenario.Op Scenario.TxAbsent
      (Scenario.Context Scenario.Root Scenario.Topic Scenario.Domain false)
      (Scenario.Context Scenario.Root Scenario.Topic Scenario.Domain false)
      { Status := .StatusPathDoesNotExist, TxId := 9, SchemeShardId := 100,
        PathDropTxId := none, PathId := none }
      rfl (by decide)).2.2.2.2.1⟩

/-- C2, refuted as stated: from a domain with 5 objects and 1000 reserved bytes, the
accepted deallocation of a group with 2 partitions, write speed 100 B/s, lifetime 5 s and
no storage limit leaves 4 objects and 0 reserved bytes; the amount taken off is
`2 * 100 * 5 = 1000`, not 500, so the claimed end value 500 is not reached. -/
theorem C2_counterexample :
    (Propose Scenario.Env Scenario.Op Scenario.Tx
        (Scenario.Context Scenario.Root Scenario.Topic Scenario.Domain false)).Result? =
      some { Status := .StatusAccepted, TxId := 9, SchemeShardId := 100,
             PathDropTxId := none, PathId := none } ∧
    Scenario.Domain.PathsInsideCount = 5 ∧ Scenario.Domain.PQReservedStorage = 1000 ∧
    Scenario.Group.TotalPartitionCount = 2 ∧
    Scenario.Config.WriteSpeedInBytesPerSecond = 100 ∧
    Scenario.Config.LifetimeSeconds = 5 ∧ Scenario.Config.StorageLimitBytes = none ∧
    Storage Scenario.Group Scenario.Config = 1000 ∧
    ((Propose Scenario.Env Scenario.Op Scenario.Tx
        (Scenario.Context Scenario.Root Scenario.Topic Scenario.Domain false)).Context.SS.SubDomains
          Scenario.RootId).PathsInsideCount = 4 ∧
    ((Propose Scenario.Env Scenario.Op Scenario.Tx
        (Scenario.Context Scenario.Root Scenario.Topic Scenario.Domain false)).Context.SS.SubDomains
          Scenario.RootId).PQReservedStorage = 0 ∧
    ((Propose Scenario.Env Scenario.Op Scenario.Tx
        (Scenario.Context Scenario.Root Scenario.Topic Scenario.Domain false)).Context.SS.SubDomains
          Scenario.RootId).PQReservedStorage ≠ 500 := by
  decide

/-- C2, amended: from a domain with 5 objects and 1000 reserved bytes, an accepted `Propose`
that deallocates a group with 2 partitions, write speed 100 B/s, lifetime 5 s and no
storage limit leaves the domain at 4 objects and 0 reserved bytes (the storage taken off
is 1000). -/
theorem C2_scenario_leaves_four_objects_zero_storage (env : TEnv)
    (OperationId : TOperationId) (Transaction : TTxTransaction)
    (context context' : TOperationContext) (r : TProposeResponse) (pathId : TPathId)
    (pqGroup : TPersQueueGroupInfo) (config : TPQTabletConfig)
    (hd : env.Defaults.Rejecting)
    (h : Propose env OperationId Transaction context = .returned r context')
    (hacc : r.Status = .StatusAccepted)
    (hbase : (TargetPath context.SS Transaction).Base = some pathId)
    (hpq : context.SS.PersQueueGroups pathId = some pqGroup)
    (hparse : env.ParseFromStringNoSizeLimit pqGroup.TabletConfig = some config)
    (hparts : pqGroup.TotalPartitionCount = 2)
    (hspeed : config.WriteSpeedInBytesPerSecond = 100)
    (hlife : config.LifetimeSeconds = 5)
    (hlimit : config.StorageLimitBytes = none)
    (hobjects : (context.SS.SubDomains
      (context.SS.ResolvePathIdForDomain pathId)).PathsInsideCount = 5)
    (hstorage : (context.SS.SubDomains
      (context.SS.ResolvePathIdForDomain pathId)).PQReservedStorage = 1000) :
    (context'.SS.SubDomains (context.SS.ResolvePathIdForDomain pathId)).PathsInsideCount = 4 ∧
    (context'.SS.SubDomains (context.SS.ResolvePathIdForDomain pathId)).PQReservedStorage = 0 := by
  obtain ⟨pathId', pqGroup', config', hbase', hpq', hparse', -, hdom⟩ :=
    Propose_accepted_domain hd h hacc
  rw [hbase] at hbase'
  cases hbase'
  rw [hpq] at hpq'
  cases hpq'
  rw [hparse] at hparse'
  cases hparse'
  rw [hdom]
  have hS : Storage pqGroup config = 1000 := by
    simp [Storage, Throughput, hlimit, hparts, hspeed, hlife, Ui64Size]
  simp [hobjects, hstorage, hS]

/-- C2, amended, on the worked scenario. -/
theorem C2_scenario_leaves_four_objects_zero_storage_witness :
    ((AcceptedContext Scenario.Env Scenario.Op Scenario.TopicId Scenario.RootId Scenario.Group
        Scenario.Config
        (Scenario.Context Scenario.Root Scenario.Topic Scenario.Domain false)).SS.SubDomains
      ((Scenario.Context Scenario.Root Scenario.Topic Scenario.Domain false).SS.ResolvePathIdForDomain
        Scenario.TopicId)).PathsInsideCount = 4 ∧
    ((AcceptedContext Scenario.Env Scenario.Op Scenario.TopicId Scenario.RootId Scenario.Group
        Scenario.Config
        (Scenario.Context Scenario.Root Scenario.Topic Scenario.Domain false)).SS.SubDomains
      ((Scenario.Context Scenario.Root Scenario.Topic Scenario.Domain false).SS.ResolvePathIdForDomain
        Scenario.TopicId)).PQReservedStorage = 0 :=
  C2_scenario_leaves_four_objects_zero_storage Scenario.Env Scenario.Op Scenario.Tx
    (Scenario.Context Scenario.Root Scenario.Topic Scenario.Domain false)
    (AcceptedContext Scenario.Env Scenario.Op Scenario.TopicId Scenario.RootId Scenario.Group
      Scenario.Config (Scenario.Context Scenario.Root Scenario.Topic Scenario.Domain false))
    (InitialResult Scenario.Op
      (Scenario.Context Scenario.Root Scenario.Topic Scenario.Domain false))
    Scenario.TopicId Scenario.Group Scenario.Config
    (by decide) rfl rfl rfl rfl rfl rfl rfl rfl rfl rfl rfl

/-- C3. For every accepted `Propose` the counters of the owning domain go down by exactly
1 object, `TotalPartitionCount` partitions and `S` reserved bytes, where `S` is the
configured `StorageLimitBytes` when the partition config has one and otherwise
`throughput * LifetimeSeconds` with
`throughput = TotalPartitionCount * WriteSpeedInBytesPerSecond`, both products modulo
`2^64`. -/
theorem C3_accepted_propose_decrements_domain (env : TEnv) (OperationId : TOperationId)
    (Transaction : TTxTransaction) (context context' : TOperationContext)
    (r : TProposeResponse) (hd : env.Defaults.Rejecting)
    (h : Propose env OperationId Transaction context = .returned r context')
    (hacc : r.Status = .StatusAccepted) :
    ∃ pathId pqGroup config S,
      (TargetPath context.SS Transaction).Base = some pathId ∧
      context.SS.PersQueueGroups pathId = some pqGroup ∧
      env.ParseFromStringNoSizeLimit pqGroup.TabletConfig = some config ∧
      S = (match config.StorageLimitBytes with
            | some limit => limit
            | none =>
              ((pqGroup.TotalPartitionCount * config.WriteSpeedInBytesPerSecond) % 2 ^ 64 *
                config.LifetimeSeconds) % 2 ^ 64) ∧
      (context'.SS.SubDomains (context.SS.ResolvePathIdForDomain pathId)).PathsInsideCount + 1 =
        (context.SS.SubDomains (context.SS.ResolvePathIdForDomain pathId)).PathsInsideCount ∧
      (context'.SS.SubDomains
          (context.SS.ResolvePathIdForDomain pathId)).PQPartitionsInsideCount +
          pqGroup.TotalPartitionCount =
        (context.SS.SubDomains
          (context.SS.ResolvePathIdForDomain pathId)).PQPartitionsInsideCount ∧
      (context'.SS.SubDomains (context.SS.ResolvePathIdForDomain pathId)).PQReservedStorage + S =
        (context.SS.SubDomains (context.SS.ResolvePathIdForDomain pathId)).PQReservedStorage := by
  obtain ⟨pathId, pqGroup, config, hbase, hpq, hparse, ⟨q1, q2, q3⟩, hdom⟩ :=
    Propose_accepted_domain hd h hacc
  refine ⟨pathId, pqGroup, config, Storage pqGroup config, hbase, hpq, hparse, ?_, ?_, ?_, ?_⟩
  · rfl
  · rw [hdom]
    exact Nat.sub_add_cancel q1
  · rw [hdom]
    exact Nat.sub_add_cancel q2
  · rw [hdom]
    exact Nat.sub_add_cancel q3

/-- C3, on the worked scenario: 5 objects, 2 partitions and 1000 bytes go down by 1, 2 and
`2 * 100 * 5 = 1000`. -/
theorem C3_accepted_propose_decrements_domain_witness :
    ∃ pathId pqGroup config S,
      (TargetPath (Scenario.Context Scenario.Root Scenario.Topic Scenario.Domain false).SS
        Scenario.Tx).Base = some pathId ∧
      (Scenario.Context Scenario.Root Scenario.Topic Scenario.Domain false).SS.PersQueueGroups
        pathId = some pqGroup ∧
      Scenario.Env.ParseFromStringNoSizeLimit pqGroup.TabletConfig = some config ∧
      S = (match config.StorageLimitBytes with
            | some limit => limit
            | none =>
              ((pqGroup.TotalPartitionCount * config.WriteSpeedInBytesPerSecond) % 2 ^ 64 *
                config.LifetimeSeconds) % 2 ^ 64) ∧
      ((AcceptedContext Scenario.Env Scenario.Op Scenario.TopicId Scenario.RootId
          Scenario.Group Scenario.Config
          (Scenario.Context Scenario.Root Scenario.Topic Scenario.Domain false)).SS.SubDomains
        ((Scenario.Context Scenario.Root Scenario.Topic
          Scenario.Domain false).SS.ResolvePathIdForDomain pathId)).PathsInsideCount + 1 =
        ((Scenario.Context Scenario.Root Scenario.Topic Scenario.Domain false).SS.SubDomains
          ((Scenario.Context Scenario.Root Scenario.Topic
            Scenario.Domain false).SS.ResolvePathIdForDomain pathId)).PathsInsideCount ∧
      ((AcceptedContext Scenario.Env Scenario.Op Scenario.TopicId Scenario.RootId
          Scenario.Group Scenario.Config
          (Scenario.Context Scenario.Root Scenario.Topic Scenario.Domain false)).SS.SubDomains
        ((Scenario.Context Scenario.Root Scenario.Topic
          Scenario.Domain false).SS.ResolvePathIdForDomain pathId)).PQPartitionsInsideCount +
          pqGroup.TotalPartitionCount =
        ((Scenario.Context Scenario.Root Scenario.Topic Scenario.Domain false).SS.SubDomains
          ((Scenario.Context Scenario.Root Scenario.Topic
            Scenario.Domain false).SS.ResolvePathIdForDomain pathId)).PQPartitionsInsideCount ∧
      ((AcceptedContext Scenario.Env Scenario.Op Scenario.TopicId Scenario.RootId
          Scenario.Group Scenario.Config
          (Scenario.Context Scenario.Root Scenario.Topic Scenario.Domain false)).SS.SubDomains
        ((Scenario.Context Scenario.Root Scenario.Topic
          Scenario.Domain false).SS.ResolvePathIdForDomain pathId)).PQReservedStorage + S =
        ((Scenario.Context Scenario.Root Scenario.Topic Scenario.Domain false).SS.SubDomains
          ((Scenario.Context Scenario.Root Scenario.Topic
            Scenario.Domain false).SS.ResolvePathIdForDomain pathId)).PQReservedStorage :=
  C3_accepted_propose_decrements_domain Scenario.Env Scenario.Op Scenario.Tx
    (Scenario.Context Scenario.Root Scenario.Topic Scenario.Domain false)
    (AcceptedContext Scenario.Env Scenario.Op Scenario.TopicId Scenario.RootId Scenario.Group
      Scenario.Config (Scenario.Context Scenario.Root Scenario.Topic Scenario.Domain false))
    (InitialResult Scenario.Op
      (Scenario.Context Scenario.Root Scenario.Topic Scenario.Domain false))
    (by decide) rfl rfl

/-- C4, refuted as stated: the accepted run of the worked scenario enqueues three entries
(the two publications and then the completion of the operation), and with
`DisablePublicationsOfDropping` set it enqueues the completion of the operation only; in
neither case exactly the two publications. -/
theorem C4_counterexample :
    (Propose Scenario.Env Scenario.Op Scenario.Tx
        (Scenario.Context Scenario.Root Scenario.Topic Scenario.Domain false)).Result? =
      some { Status := .StatusAccepted, TxId := 9, SchemeShardId := 100,
             PathDropTxId := none, PathId := none } ∧
    (Propose Scenario.Env Scenario.Op Scenario.Tx
        (Scenario.Context Scenario.Root Scenario.Topic Scenario.Domain false)).Context.OnComplete =
      [TSideEffect.PublishToSchemeBoard Scenario.Op Scenario.RootId,
       TSideEffect.PublishToSchemeBoard Scenario.Op Scenario.TopicId,
       TSideEffect.DoneOperation Scenario.Op] ∧
    (Propose Scenario.Env Scenario.Op Scenario.Tx
        (Scenario.Context Scenario.Root Scenario.Topic Scenario.Domain true)).Result? =
      some { Status := .StatusAccepted, TxId := 9, SchemeShardId := 100,
             PathDropTxId := none, PathId := none } ∧
    (Propose Scenario.Env Scenario.Op Scenario.Tx
        (Scenario.Context Scenario.Root Scenario.Topic Scenario.Domain true)).Context.OnComplete =
      [TSideEffect.DoneOperation Scenario.Op] := by
  decide

/-- C4, amended: an accepted `Propose` appends to the completion queue the publication for
the parent path and then the publication for the deallocated path, in this order and only
when `DisablePublicationsOfDropping` is clear, followed in every case by the completion of
the operation; a rejected `Propose` enqueues nothing. -/
theorem C4_completion_entries (env : TEnv) (OperationId : TOperationId)
    (Transaction : TTxTransaction) (context context' : TOperationContext)
    (r : TProposeResponse) (hd : env.Defaults.Rejecting)
    (h : Propose env OperationId Transaction context = .returned r context') :
    (r.Status = .StatusAccepted →
      ∃ pathId parentId,
        (TargetPath context.SS Transaction).Base = some pathId ∧
        (TargetPath context.SS Transaction).Parent.Base = some parentId ∧
        context'.OnComplete =
          context.OnComplete ++
            (if context.SS.DisablePublicationsOfDropping then []
              else [TSideEffect.PublishToSchemeBoard OperationId parentId,
                TSideEffect.PublishToSchemeBoard OperationId pathId]) ++
            [TSideEffect.DoneOperation OperationId]) ∧
    (r.Status ≠ .StatusAccepted → context'.OnComplete = context.OnComplete) := by
  constructor
  · intro hacc
    obtain ⟨pathId, parentId, pqGroup, config, hA, -, hc⟩ := Propose_accepted hd h hacc
    refine ⟨pathId, parentId, hA.1.1, hA.2.1, ?_⟩
    rw [hc]
    exact AcceptedContext_OnComplete env OperationId pathId parentId pqGroup config context
  · intro hr
    rw [Propose_returned_not_accepted h hr]

/-- C4, amended, on the worked scenario with publications enabled. -/
theorem C4_completion_entries_witness :
    (AcceptedContext Scenario.Env Scenario.Op Scenario.TopicId Scenario.RootId Scenario.Group
        Scenario.Config
        (Scenario.Context Scenario.Root Scenario.Topic Scenario.Domain false)).OnComplete =
      [TSideEffect.PublishToSchemeBoard Scenario.Op Scenario.RootId,
       TSideEffect.PublishToSchemeBoard Scenario.Op Scenario.TopicId,
       TSideEffect.DoneOperation Scenario.Op] := by
  obtain ⟨pathId, parentId, hb, hp, hq⟩ :=
    (C4_completion_entries Scenario.Env Scenario.Op Scenario.Tx
      (Scenario.Context Scenario.Root Scenario.Topic Scenario.Domain false)
      (AcceptedContext Scenario.Env Scenario.Op Scenario.TopicId Scenario.RootId Scenario.Group
        Scenario.Config (Scenario.Context Scenario.Root Scenario.Topic Scenario.Domain false))
      (InitialResult Scenario.Op
        (Scenario.Context Scenario.Root Scenario.Topic Scenario.Domain false))
      (by decide) rfl).1 rfl
  have h1 : pathId = Scenario.TopicId := (Option.some.inj hb).symm
  have h2 : parentId = Scenario.RootId := (Option.some.inj hp).symm
  subst h1 h2
  exact hq

/-! ## Rejections by the target chain -/

theorem Propose_of_PathChecks_failed {env : TEnv} (OperationId : TOperationId)
    {Transaction : TTxTransaction} {context : TOperationContext}
    (hf : (PathChecks env context.SS (TargetPath context.SS Transaction)).Failed = true) :
    Propose env OperationId Transaction context =
      .returned
        (ReportPlannedDrop context.SS (TargetPath context.SS Transaction)
          ((InitialResult OperationId context).SetError
            (PathChecks env context.SS (TargetPath context.SS Transaction)).Status))
        context := by
  unfold Propose
  dsimp only
  unfold TargetPath at hf
  rw [if_pos hf]
  rfl

theorem Propose_of_ParentChecks_failed {env : TEnv} {OperationId : TOperationId}
    {Transaction : TTxTransaction} {context : TOperationContext}
    (hp : (PathChecks env context.SS (TargetPath context.SS Transaction)).Failed = false)
    (hf : (ParentChecks env context.SS (TargetPath context.SS Transaction).Parent
      OperationId.TxId).Failed = true) :
    Propose env OperationId Transaction context =
      .returned
        ((InitialResult OperationId context).SetError
          (ParentChecks env context.SS (TargetPath context.SS Transaction).Parent
            OperationId.TxId).Status)
        context := by
  unfold Propose
  dsimp only
  unfold TargetPath at hp hf
  rw [if_neg (by rw [hp]; decide), if_pos hf]
  rfl

/-- The status the target chain ends with: that of its first failing link. -/
theorem PathChecks_Status (env : TEnv) (ss : TSchemeShard) (path : TPath) :
    (PathChecks env ss path).Status =
      if path.IsEmpty then env.Defaults.NotEmpty
      else if env.Facts.IsUnderDomainUpgrade ss path then env.Defaults.NotUnderDomainUpgrade
      else if !env.Facts.IsAtLocalSchemeShard ss path then env.Defaults.IsAtLocalSchemeShard
      else if !path.IsResolved then env.Defaults.IsResolved
      else if path.IsDeleted ss then env.Defaults.NotDeleted
      else if path.IsUnderDeleting ss then env.Defaults.NotUnderDeleting
      else if path.IsUnderOperation ss then env.Defaults.NotUnderOperation
      else if !(match path.BaseElement ss with
          | some el => el.IsPQGroup
          | none => false) then env.Defaults.IsPQGroup
      else .StatusSuccess := by
  simp only [PathChecks, TChecker.NotEmpty, TChecker.NotUnderDomainUpgrade,
    TChecker.IsAtLocalSchemeShard, TChecker.IsResolved, TChecker.NotDeleted,
    TChecker.NotUnderDeleting, TChecker.NotUnderOperation, TChecker.IsPQGroup,
    TChecker.Step_SS, TChecker.Step_Path, TPath.Check]
  generalize path.IsEmpty = b1
  generalize env.Facts.IsUnderDomainUpgrade ss path = b2
  generalize env.Facts.IsAtLocalSchemeShard ss path = b3
  generalize path.IsResolved = b4
  generalize path.IsDeleted ss = b5
  generalize path.IsUnderDeleting ss = b6
  generalize path.IsUnderOperation ss = b7
  generalize (match path.BaseElement ss with
    | some el => el.IsPQGroup
    | none => false) = b8
  cases b1 <;> cases b2 <;> cases b3 <;> cases b4 <;> cases b5 <;> cases b6 <;> cases b7 <;>
    cases b8 <;> rfl

theorem BaseElement_of_Base (ss : TSchemeShard) {p : TPath} {id : TPathId}
    (h : p.Base = some id) : p.BaseElement ss = some (ss.PathsById id) := by
  unfold TPath.BaseElement
  rw [h]

theorem PlannedToDrop_not_Dropped {el : TPathElement} (h : el.PlannedToDrop = true) :
    el.Dropped = false := by
  unfold TPathElement.PlannedToDrop at h
  unfold TPathElement.Dropped
  split at h
  · rename_i hs
    rw [hs]
  · cases h

/-- C5, refuted as stated: the topic of the scenario was dropped by transaction 7; a further
deallocation is rejected, but the response carries neither the path id nor the drop
transaction id, because the report of lines 62-65 is made for `PlannedToDrop()` only. -/
theorem C5_counterexample :
    (Scenario.TopicDropped.IsPQGroup = true ∧ Scenario.TopicDropped.Dropped = true ∧
      Scenario.TopicDropped.DropTxId = 7) ∧
    (TargetPath (Scenario.Context Scenario.Root Scenario.TopicDropped Scenario.Domain false).SS
      Scenario.Tx).IsResolved = true ∧
    Propose Scenario.Env Scenario.Op Scenario.Tx
        (Scenario.Context Scenario.Root Scenario.TopicDropped Scenario.Domain false) =
      .returned
        { Status := .StatusPathDoesNotExist, TxId := 9, SchemeShardId := 100,
          PathDropTxId := none, PathId := none }
        (Scenario.Context Scenario.Root Scenario.TopicDropped Scenario.Domain false) :=
  ⟨by decide, by decide, rfl⟩

/-- C5, amended: for every target path that resolves to a stream group and is already
dropped or is being dropped, `Propose` returns a rejection and mutates no state; when the
path is being dropped (planned to drop) under transaction `T`, the response carries the
pair of the path's local id and `T`. -/
theorem C5_drop_in_progress_reported (env : TEnv) (OperationId : TOperationId)
    (Transaction : TTxTransaction) (context : TOperationContext) (pathId : TPathId)
    (hd : env.Defaults.Rejecting)
    (hres : (TargetPath context.SS Transaction).IsResolved = true)
    (hbase : (TargetPath context.SS Transaction).Base = some pathId)
    (hkind : (context.SS.PathsById pathId).IsPQGroup = true)
    (hstate : (context.SS.PathsById pathId).Dropped = true ∨
      (context.SS.PathsById pathId).PlannedToDrop = true) :
    ∃ r, Propose env OperationId Transaction context = .returned r context ∧
      r.Status ≠ .StatusAccepted ∧
      ((context.SS.PathsById pathId).PlannedToDrop = true →
        r.PathId = some pathId.LocalPathId ∧
        r.PathDropTxId = some (context.SS.PathsById pathId).DropTxId) := by
  have hel := BaseElement_of_Base context.SS hbase
  have hf : (PathChecks env context.SS (TargetPath context.SS Transaction)).Failed = true := by
    rw [PathChecks_Failed]
    have hor : (TargetPath context.SS Transaction).IsDeleted context.SS = true ∨
        (TargetPath context.SS Transaction).IsUnderDeleting context.SS = true := by
      unfold TPath.IsDeleted TPath.IsUnderDeleting
      rw [hel]
      exact hstate
    rcases hor with h1 | h1 <;> simp [h1]
  refine ⟨_, Propose_of_PathChecks_failed OperationId hf, ?_, ?_⟩
  · rw [ReportPlannedDrop_Status]
    exact PathChecks_Sound hd _ _ hf
  · intro hplanned
    unfold ReportPlannedDrop
    rw [if_pos hres, hbase]
    dsimp only
    rw [hkind, hplanned]
    exact ⟨rfl, rfl⟩

/-- C5, amended, on an input: the topic is being dropped by transaction 7; the rejection
carries local path id 2 and drop transaction 7. -/
theorem C5_drop_in_progress_reported_witness :
    ∃ r, Propose Scenario.Env Scenario.Op Scenario.Tx
        (Scenario.Context Scenario.Root Scenario.TopicDropping Scenario.Domain false) =
        .returned r
          (Scenario.Context Scenario.Root Scenario.TopicDropping Scenario.Domain false) ∧
      r.Status ≠ .StatusAccepted ∧ r.PathId = some 2 ∧ r.PathDropTxId = some 7 := by
  obtain ⟨r, h, hs, hp⟩ :=
    C5_drop_in_progress_reported Scenario.Env Scenario.Op Scenario.Tx
      (Scenario.Context Scenario.Root Scenario.TopicDropping Scenario.Domain false)
      Scenario.TopicId (by decide) (by decide) (by decide) (by decide)
      (Or.inr (by decide))
  exact ⟨r, h, hs, hp (by decide)⟩

/-- C6, refuted as stated: the topic is claimed by transaction 7 (an alter in progress);
the deallocation proposed by transaction 9 is rejected, and no field of the response holds
7: its transaction id is the proposer's 9, and no drop transaction id is set. -/
theorem C6_counterexample :
    Scenario.TopicAltering.OwningTransaction = some 7 ∧ Scenario.Op.TxId = 9 ∧
    Propose Scenario.Env Scenario.Op Scenario.Tx
        (Scenario.Context Scenario.Root Scenario.TopicAltering Scenario.Domain false) =
      .returned
        { Status := .StatusMultipleModifications, TxId := 9, SchemeShardId := 100,
          PathDropTxId := none, PathId := none }
        (Scenario.Context Scenario.Root Scenario.TopicAltering Scenario.Domain false) :=
  ⟨rfl, rfl, rfl⟩

/-- C6, amended: for every resolved target path `P` claimed by a transaction `T1`, a
`Propose` targeting `P` (by any transaction) is rejected with the status of the first
failing link of the target chain, at the latest `NotUnderOperation`; the state is
unchanged, so `P` is still claimed by `T1`; the transaction id in the response is the
proposer's own, and the response carries a drop transaction id, namely `P`'s `DropTxId`,
exactly when `P` is a stream group planned to drop. -/
theorem C6_claimed_path_rejected (env : TEnv) (OperationId : TOperationId)
    (Transaction : TTxTransaction) (context : TOperationContext) (pathId : TPathId)
    (T1 : TTxId) (hd : env.Defaults.Rejecting)
    (hres : (TargetPath context.SS Transaction).IsResolved = true)
    (hbase : (TargetPath context.SS Transaction).Base = some pathId)
    (hclaim : (context.SS.PathsById pathId).OwningTransaction = some T1) :
    ∃ r context', Propose env OperationId Transaction context = .returned r context' ∧
      r.Status ≠ .StatusAccepted ∧
      r.Status ∈ [env.Defaults.NotUnderDomainUpgrade, env.Defaults.IsAtLocalSchemeShard,
        env.Defaults.NotDeleted, env.Defaults.NotUnderDeleting,
        env.Defaults.NotUnderOperation] ∧
      context' = context ∧
      (context'.SS.PathsById pathId).OwningTransaction = some T1 ∧
      r.TxId = OperationId.TxId ∧
      r.PathDropTxId =
        (if (context.SS.PathsById pathId).IsPQGroup &&
            (context.SS.PathsById pathId).PlannedToDrop
          then some (context.SS.PathsById pathId).DropTxId else none) := by
  have hel := BaseElement_of_Base context.SS hbase
  have hop : (TargetPath context.SS Transaction).IsUnderOperation context.SS = true := by
    unfold TPath.IsUnderOperation
    rw [hel]
    dsimp only
    rw [hclaim]
    rfl
  have hne : (TargetPath context.SS Transaction).IsEmpty = false := by
    unfold TPath.IsResolved at hres
    unfold TPath.IsEmpty
    cases hn : (TargetPath context.SS Transaction).NameParts.isEmpty
    · rfl
    · rw [hn] at hres
      cases hres
  have hf : (PathChecks env context.SS (TargetPath context.SS Transaction)).Failed = true := by
    rw [PathChecks_Failed]
    simp [hop]
  refine ⟨_, context, Propose_of_PathChecks_failed OperationId hf, ?_, ?_, rfl, hclaim, ?_, ?_⟩
  · rw [ReportPlannedDrop_Status]
    exact PathChecks_Sound hd _ _ hf
  · rw [ReportPlannedDrop_Status]
    show (PathChecks env context.SS (TargetPath context.SS Transaction)).Status ∈ _
    rw [PathChecks_Status, hne, hres, hop]
    generalize env.Facts.IsUnderDomainUpgrade context.SS (TargetPath context.SS Transaction) = b2
    generalize env.Facts.IsAtLocalSchemeShard context.SS (TargetPath context.SS Transaction) = b3
    generalize (TargetPath context.SS Transaction).IsDeleted context.SS = b5
    generalize (TargetPath context.SS Transaction).IsUnderDeleting context.SS = b6
    cases b2 <;> cases b3 <;> cases b5 <;> cases b6 <;> simp
  · unfold ReportPlannedDrop
    rw [if_pos hres, hbase]
    dsimp only
    split <;> rfl
  · unfold ReportPlannedDrop
    rw [if_pos hres, hbase]
    dsimp only
    split <;> rfl

/-- C6, amended, on an input: the topic is being dropped by transaction 7 and transaction 9
proposes; the response names 9 as its transaction and 7 as the drop transaction. -/
theorem C6_claimed_path_rejected_witness :
    ∃ r context', Propose Scenario.Env Scenario.Op Scenario.Tx
        (Scenario.Context Scenario.Root Scenario.TopicDropping Scenario.Domain false) =
        .returned r context' ∧
      r.Status ≠ .StatusAccepted ∧
      (context'.SS.PathsById Scenario.TopicId).OwningTransaction = some 7 ∧
      r.TxId = 9 ∧ r.PathDropTxId = some 7 := by
  obtain ⟨r, context', h, hs, -, -, ho, ht, hp⟩ :=
    C6_claimed_path_rejected Scenario.Env Scenario.Op Scenario.Tx
      (Scenario.Context Scenario.Root Scenario.TopicDropping Scenario.Domain false)
      Scenario.TopicId 7 (by decide) (by decide) (by decide) (by decide)
  exact ⟨r, context', h, hs, ho, ht, hp⟩

/-! ## The state after an accepted run, seen by a later resolution -/

theorem Dive_congr {ss1 ss2 : TSchemeShard} (hroot : ss1.RootPathId = ss2.RootPathId)
    (hname : ∀ k, (ss1.PathsById k).Name = (ss2.PathsById k).Name)
    (hchildren : ∀ k, (ss1.PathsById k).Children = (ss2.PathsById k).Children)
    (p : TPath) (name : String) : TPath.Dive ss1 p name = TPath.Dive ss2 p name := by
  unfold TPath.Dive TPathElement.FindChild
  simp only [hroot, hname, hchildren]

theorem Resolve_congr {ss1 ss2 : TSchemeShard} (hroot : ss1.RootPathId = ss2.RootPathId)
    (hname : ∀ k, (ss1.PathsById k).Name = (ss2.PathsById k).Name)
    (hchildren : ∀ k, (ss1.PathsById k).Children = (ss2.PathsById k).Children)
    (parts : List String) : TPath.Resolve ss1 parts = TPath.Resolve ss2 parts := by
  have hdive : TPath.Dive ss1 = TPath.Dive ss2 :=
    funext fun p => funext fun name => Dive_congr hroot hname hchildren p name
  unfold TPath.Resolve
  rw [hdive]

theorem AcceptedContext_Name (env : TEnv) (OperationId : TOperationId)
    (pathId parentId : TPathId) (pqGroup : TPersQueueGroupInfo) (config : TPQTabletConfig)
    (context : TOperationContext) (k : TPathId) :
    ((AcceptedContext env OperationId pathId parentId pqGroup config context).SS.PathsById
      k).Name = (context.SS.PathsById k).Name := by
  simp only [AcceptedContext, FinishStage, ReleaseStage, DropStage, TSchemeShard.ModifyPath,
    TSchemeShard.SetDomain, TSchemeShard.SimpleSub, TPathElement.SetDropped]
  split_ifs <;> simp_all

theorem AcceptedContext_Children (env : TEnv) (OperationId : TOperationId)
    (pathId parentId : TPathId) (pqGroup : TPersQueueGroupInfo) (config : TPQTabletConfig)
    (context : TOperationContext) (k : TPathId) :
    ((AcceptedContext env OperationId pathId parentId pqGroup config context).SS.PathsById
      k).Children = (context.SS.PathsById k).Children := by
  simp only [AcceptedContext, FinishStage, ReleaseStage, DropStage, TSchemeShard.ModifyPath,
    TSchemeShard.SetDomain, TSchemeShard.SimpleSub, TPathElement.SetDropped]
  split_ifs <;> simp_all

theorem AcceptedContext_PathState (env : TEnv) (OperationId : TOperationId)
    (pathId parentId : TPathId) (pqGroup : TPersQueueGroupInfo) (config : TPQTabletConfig)
    (context : TOperationContext) :
    ((AcceptedContext env OperationId pathId parentId pqGroup config context).SS.PathsById
      pathId).PathState = .Dropped := by
  simp only [AcceptedContext, FinishStage, ReleaseStage, DropStage, TSchemeShard.ModifyPath,
    TSchemeShard.SetDomain, TSchemeShard.SimpleSub, TPathElement.SetDropped]
  split_ifs <;> simp_all

theorem AcceptedContext_TargetPath (env : TEnv) (OperationId : TOperationId)
    (pathId parentId : TPathId) (pqGroup : TPersQueueGroupInfo) (config : TPQTabletConfig)
    (context : TOperationContext) (Transaction : TTxTransaction) :
    TargetPath (AcceptedContext env OperationId pathId parentId pqGroup config context).SS
      Transaction = TargetPath context.SS Transaction := by
  have hroot : (AcceptedContext env OperationId pathId parentId pqGroup config
      context).SS.RootPathId = context.SS.RootPathId := by
    simp only [AcceptedContext, FinishStage, ReleaseStage, DropStage, TSchemeShard.ModifyPath,
      TSchemeShard.SetDomain, TSchemeShard.SimpleSub]
  unfold TargetPath
  rw [Resolve_congr hroot (AcceptedContext_Name env OperationId pathId parentId pqGroup config
      context) (AcceptedContext_Children env OperationId pathId parentId pqGroup config context),
    Dive_congr hroot (AcceptedContext_Name env OperationId pathId parentId pqGroup config
      context) (AcceptedContext_Children env OperationId pathId parentId pqGroup config context)]

/-- C7. Whenever a `Propose` on a path is accepted, a second `Propose` on the same path run
in the resulting state (by any operation, at any time) is rejected and returns that state
as it is: the domain counters, the tablet counters and every alive-children count, the
parent's among them, keep the values they had after the first call. -/
theorem C7_second_propose_rejected (env env2 : TEnv) (OperationId OperationId2 : TOperationId)
    (Transaction : TTxTransaction) (context context1 : TOperationContext)
    (r1 : TProposeResponse) (hd : env.Defaults.Rejecting) (hd2 : env2.Defaults.Rejecting)
    (h1 : Propose env OperationId Transaction context = .returned r1 context1)
    (hacc : r1.Status = .StatusAccepted) :
    ∃ r2 context2, Propose env2 OperationId2 Transaction context1 = .returned r2 context2 ∧
      r2.Status ≠ .StatusAccepted ∧
      context2 = context1 ∧
      context2.SS.SubDomains = context1.SS.SubDomains ∧
      context2.SS.TabletCounters = context1.SS.TabletCounters ∧
      (∀ k, (context2.SS.PathsById k).AliveChildrenCount =
        (context1.SS.PathsById k).AliveChildrenCount) := by
  obtain ⟨pathId, parentId, pqGroup, config, hA, -, hc⟩ := Propose_accepted hd h1 hacc
  obtain ⟨⟨hbase, hpass, -⟩, -⟩ := hA
  have hpath : TargetPath context1.SS Transaction = TargetPath context.SS Transaction := by
    rw [hc]
    exact AcceptedContext_TargetPath env OperationId pathId parentId pqGroup config context
      Transaction
  have hdel : (TargetPath context1.SS Transaction).IsDeleted context1.SS = true := by
    unfold TPath.IsDeleted
    rw [hpath, BaseElement_of_Base context1.SS hbase]
    dsimp only
    unfold TPathElement.Dropped
    rw [hc, AcceptedContext_PathState]
  have hf : (PathChecks env2 context1.SS (TargetPath context1.SS Transaction)).Failed = true := by
    rw [PathChecks_Failed]
    simp [hdel]
  refine ⟨_, context1, Propose_of_PathChecks_failed OperationId2 hf, ?_, rfl, rfl, rfl,
    fun _ => rfl⟩
  rw [ReportPlannedDrop_Status]
  exact PathChecks_Sound hd2 _ _ hf

/-- C7, on the worked scenario: after transaction 9 deallocated the topic, the same request
by transaction 11 is rejected and the state stays as the first call left it. -/
theorem C7_second_propose_rejected_witness :
    ∃ r2 context2,
      Propose Scenario.Env { TxId := 11, SubTxId := 0 } Scenario.Tx
        (AcceptedContext Scenario.Env Scenario.Op Scenario.TopicId Scenario.RootId
          Scenario.Group Scenario.Config
          (Scenario.Context Scenario.Root Scenario.Topic Scenario.Domain false)) =
        .returned r2 context2 ∧
      r2.Status ≠ .StatusAccepted ∧
      context2 = AcceptedContext Scenario.Env Scenario.Op Scenario.TopicId Scenario.RootId
          Scenario.Group Scenario.Config
          (Scenario.Context Scenario.Root Scenario.Topic Scenario.Domain false) := by
  obtain ⟨r2, context2, h, hs, hc, -⟩ :=
    C7_second_propose_rejected Scenario.Env Scenario.Env Scenario.Op
      { TxId := 11, SubTxId := 0 } Scenario.Tx
      (Scenario.Context Scenario.Root Scenario.Topic Scenario.Domain false)
      (AcceptedContext Scenario.Env Scenario.Op Scenario.TopicId Scenario.RootId
        Scenario.Group Scenario.Config
        (Scenario.Context Scenario.Root Scenario.Topic Scenario.Domain false))
      (InitialResult Scenario.Op
        (Scenario.Context Scenario.Root Scenario.Topic Scenario.Domain false))
      (by decide) (by decide) rfl rfl
  exact ⟨r2, context2, h, hs, hc⟩

/-! ## Rejections by the parent chain -/

/-- The parent of a resolved path, when it has a base element, is itself resolved. -/
theorem Parent_resolved {p : TPath} {id : TPathId} (hres : p.IsResolved = true)
    (hbase : p.Parent.Base = some id) :
    p.Parent.IsEmpty = false ∧ p.Parent.IsResolved = true := by
  have hlen : p.NameParts.length = p.Elements.length := by
    unfold TPath.IsResolved at hres
    simp only [Bool.and_eq_true, beq_iff_eq] at hres
    exact hres.2
  have hparent : p.Parent =
      { NameParts := p.NameParts.dropLast, Elements := p.Elements.dropLast } := by
    unfold TPath.Parent
    rw [if_pos hres]
  rw [hparent] at hbase ⊢
  have hpos : 0 < p.Elements.dropLast.length := by
    unfold TPath.Base at hbase
    dsimp only at hbase
    cases hl : p.Elements.dropLast with
    | nil => rw [hl] at hbase; cases hbase
    | cons a t => simp
  have hlen2 : p.NameParts.dropLast.length = p.Elements.dropLast.length := by
    simp only [List.length_dropLast, hlen]
  have hne : p.NameParts.dropLast ≠ [] := by
    intro hnil
    rw [hnil] at hlen2
    simp only [List.length_nil] at hlen2
    omega
  constructor
  · unfold TPath.IsEmpty
    dsimp only
    cases hl : p.NameParts.dropLast with
    | nil => exact absurd hl hne
    | cons a t => rfl
  · unfold TPath.IsResolved
    dsimp only
    cases hl : p.NameParts.dropLast with
    | nil => exact absurd hl hne
    | cons a t =>
      rw [hl] at hlen2
      simp [hlen2]

/-- A resolved, non-empty parent that is planned to drop and not claimed by the proposing
transaction fails its chain, at `IsInsideCdcStreamPath` or `IsUnderTheSameOperation` when it
is a change-data-capture stream and at `IsLikeDirectory`, `IsCommonSensePath` or
`NotUnderDeleting` otherwise. -/
theorem ParentChecks_under_deleting (env : TEnv) {ss : TSchemeShard} {parent : TPath}
    {txId : TTxId} {el : TPathElement}
    (hne : parent.IsEmpty = false) (hres : parent.IsResolved = true)
    (hel : parent.BaseElement ss = some el) (hdel : el.PlannedToDrop = true)
    (hop : el.OwningTransaction ≠ some txId) :
    (ParentChecks env ss parent txId).Failed = true ∧
    (ParentChecks env ss parent txId).Status ∈
      (if el.IsCdcStream then
        [env.Defaults.IsInsideCdcStreamPath, env.Defaults.IsUnderTheSameOperation]
      else
        [env.Defaults.IsLikeDirectory, env.Defaults.IsCommonSensePath,
          env.Defaults.NotUnderDeleting]) := by
  have h1 : parent.IsDeleted ss = false := by
    unfold TPath.IsDeleted
    rw [hel]
    exact PlannedToDrop_not_Dropped hdel
  have h2 : parent.IsUnderDeleting ss = true := by
    unfold TPath.IsUnderDeleting
    rw [hel]
    exact hdel
  have h3 : decide (parent.ActiveOperation ss = some txId) = false := by
    unfold TPath.ActiveOperation
    rw [hel]
    exact decide_eq_false hop
  simp only [ParentChecks, TChecker.NotEmpty, TChecker.IsResolved, TChecker.NotDeleted,
    TChecker.IsCdcStream, TChecker.IsInsideCdcStreamPath, TChecker.IsUnderDeleting,
    TChecker.IsUnderTheSameOperation, TChecker.IsLikeDirectory, TChecker.IsCommonSensePath,
    TChecker.NotUnderDeleting, TChecker.Step_SS, TChecker.Step_Path, TPath.Check,
    hne, hres, h1, h2, h3, hel]
  generalize env.Facts.IsInsideCdcStreamPath ss parent = b1
  generalize env.Facts.IsLikeDirectory ss parent = b2
  generalize env.Facts.IsCommonSensePath ss parent = b3
  cases hc : el.IsCdcStream <;> cases b1 <;> cases b2 <;> cases b3 <;>
    simp [TChecker.Step]

theorem PathChecks_passed_resolved {env : TEnv} {ss : TSchemeShard} {path : TPath}
    (h : (PathChecks env ss path).Failed = false) : path.IsResolved = true := by
  rw [PathChecks_Failed] at h
  cases hr : path.IsResolved with
  | true => rfl
  | false =>
    rw [hr] at h
    simp at h

theorem BaseElement_of_IsUnderDeleting {ss : TSchemeShard} {p : TPath}
    (h : p.IsUnderDeleting ss = true) :
    ∃ id, p.Base = some id ∧ p.BaseElement ss = some (ss.PathsById id) ∧
      (ss.PathsById id).PlannedToDrop = true := by
  unfold TPath.IsUnderDeleting TPath.BaseElement at h
  cases hb : p.Base with
  | none => rw [hb] at h; cases h
  | some id =>
    rw [hb] at h
    exact ⟨id, rfl, BaseElement_of_Base ss hb, h⟩

/-- C8, refuted as stated: with the transaction 7 deleting the parent and transaction 9
proposing, the rejection status is the one handed to the failing link, which the operation
leaves to the checker's default: here `StatusMultipleModifications`, for a directory parent
(link `NotUnderDeleting`) and for a change-data-capture stream parent (link
`IsUnderTheSameOperation`) alike, neither `StatusPreconditionFailed` nor
`StatusNameConflict`. -/
theorem C8_counterexample :
    (Scenario.RootDeleting.PlannedToDrop = true ∧
      Scenario.RootDeleting.OwningTransaction = some 7 ∧
      Scenario.RootDeleting.IsCdcStream = false ∧
      Scenario.StreamDeleting.PlannedToDrop = true ∧
      Scenario.StreamDeleting.OwningTransaction = some 7 ∧
      Scenario.StreamDeleting.IsCdcStream = true ∧ Scenario.Op.TxId = 9) ∧
    Propose Scenario.Env Scenario.Op Scenario.Tx
        (Scenario.Context Scenario.RootDeleting Scenario.Topic Scenario.Domain false) =
      .returned
        { Status := .StatusMultipleModifications, TxId := 9, SchemeShardId := 100,
          PathDropTxId := none, PathId := none }
        (Scenario.Context Scenario.RootDeleting Scenario.Topic Scenario.Domain false) ∧
    Propose Scenario.Env Scenario.Op Scenario.Tx
        (Scenario.Context Scenario.StreamDeleting Scenario.Topic Scenario.Domain false) =
      .returned
        { Status := .StatusMultipleModifications, TxId := 9, SchemeShardId := 100,
          PathDropTxId := none, PathId := none }
        (Scenario.Context Scenario.StreamDeleting Scenario.Topic Scenario.Domain false) ∧
    EStatus.StatusMultipleModifications ≠ EStatus.StatusPreconditionFailed ∧
    EStatus.StatusMultipleModifications ≠ EStatus.StatusNameConflict :=
  ⟨by decide, rfl, rfl, by decide, by decide⟩

/-- C8, amended: for every target path whose parent is under deletion and not claimed by
the proposing operation's transaction, `Propose` is rejected and changes nothing, both when
the parent is a change-data-capture stream and when it is any other kind of node.  When the
target passes its own chain, the status is the one given to the failing link of the parent
chain: the status of `IsInsideCdcStreamPath` or `IsUnderTheSameOperation` for a stream
parent, that of `IsLikeDirectory`, `IsCommonSensePath` or `NotUnderDeleting` otherwise;
the explicit `StatusNameConflict` of `IsUnderDeleting` is never the cause. -/
theorem C8_parent_under_foreign_deletion_rejected (env : TEnv) (OperationId : TOperationId)
    (Transaction : TTxTransaction) (context : TOperationContext)
    (hd : env.Defaults.Rejecting)
    (hdel : (TargetPath context.SS Transaction).Parent.IsUnderDeleting context.SS = true)
    (hop : (TargetPath context.SS Transaction).Parent.ActiveOperation context.SS ≠
      some OperationId.TxId) :
    ∃ r, Propose env OperationId Transaction context = .returned r context ∧
      r.Status ≠ .StatusAccepted ∧
      ((PathChecks env context.SS (TargetPath context.SS Transaction)).Failed = false →
        ∃ parentEl,
          (TargetPath context.SS Transaction).Parent.BaseElement context.SS = some parentEl ∧
          r.Status ∈
            (if parentEl.IsCdcStream then
              [env.Defaults.IsInsideCdcStreamPath, env.Defaults.IsUnderTheSameOperation]
            else
              [env.Defaults.IsLikeDirectory, env.Defaults.IsCommonSensePath,
                env.Defaults.NotUnderDeleting])) := by
  cases hpf : (PathChecks env context.SS (TargetPath context.SS Transaction)).Failed with
  | true =>
    refine ⟨_, Propose_of_PathChecks_failed OperationId hpf, ?_, fun hcontra => by cases hcontra⟩
    rw [ReportPlannedDrop_Status]
    exact PathChecks_Sound hd _ _ hpf
  | false =>
    obtain ⟨parentId, hpbase, hpel, hplanned⟩ := BaseElement_of_IsUnderDeleting hdel
    obtain ⟨hne, hres⟩ := Parent_resolved (PathChecks_passed_resolved hpf) hpbase
    have hown : (context.SS.PathsById parentId).OwningTransaction ≠ some OperationId.TxId := by
      unfold TPath.ActiveOperation at hop
      rw [hpel] at hop
      exact hop
    obtain ⟨hfail, hstatus⟩ :=
      ParentChecks_under_deleting env hne hres hpel hplanned hown
    refine ⟨_, Propose_of_ParentChecks_failed hpf hfail, ?_, fun _ => ⟨_, hpel, hstatus⟩⟩
    exact ParentChecks_Sound hd _ _ _ hfail

/-- C8, amended, on an input: the root directory is being deleted by transaction 7 and
transaction 9 proposes; the rejection carries the status of `NotUnderDeleting`. -/
theorem C8_parent_under_foreign_deletion_rejected_witness :
    ∃ r, Propose Scenario.Env Scenario.Op Scenario.Tx
        (Scenario.Context Scenario.RootDeleting Scenario.Topic Scenario.Domain false) =
        .returned r
          (Scenario.Context Scenario.RootDeleting Scenario.Topic Scenario.Domain false) ∧
      r.Status ≠ .StatusAccepted ∧
      r.Status ∈ [Scenario.Env.Defaults.IsLikeDirectory,
        Scenario.Env.Defaults.IsCommonSensePath, Scenario.Env.Defaults.NotUnderDeleting] := by
  obtain ⟨r, h, hs, hm⟩ :=
    C8_parent_under_foreign_deletion_rejected Scenario.Env Scenario.Op Scenario.Tx
      (Scenario.Context Scenario.RootDeleting Scenario.Topic Scenario.Domain false)
      (by decide) (by decide) (by decide)
  obtain ⟨parentEl, hel, hmem⟩ := hm (by decide)
  have hroot : parentEl = Scenario.RootDeleting := (Option.some.inj hel).symm
  subst hroot
  exact ⟨r, h, hs, hmem⟩

/-! ## Runs that pass the validation -/

theorem Propose_of_Validated {env : TEnv} {OperationId : TOperationId}
    {Transaction : TTxTransaction} {context : TOperationContext} {pathId : TPathId}
    {pqGroup : TPersQueueGroupInfo} {config : TPQTabletConfig}
    (hv : Validated env OperationId Transaction context pathId pqGroup config) :
    Propose env OperationId Transaction context =
      Release env OperationId (TargetPath context.SS Transaction)
        (TargetPath context.SS Transaction).Parent pathId pqGroup config
        (InitialResult OperationId context) (DropStage env OperationId pathId context) := by
  obtain ⟨hbase, hpath, hparent, happly, hpq, halter, hcfg, hparse⟩ := hv
  unfold Propose
  dsimp only
  unfold TargetPath at hbase hpath hparent
  rw [if_neg (by rw [hpath]; decide), if_neg (by rw [hparent]; decide),
    if_neg (by rw [happly]; decide)]
  simp only [hbase, hpq]
  rw [if_neg (by rw [halter]; decide), if_neg hcfg]
  simp only [hparse]
  rfl

theorem Release_fatal (env : TEnv) (OperationId : TOperationId) (path parent : TPath)
    {pathId : TPathId} {pqGroup : TPersQueueGroupInfo} {config : TPQTabletConfig}
    (result : TProposeResponse) {c : TOperationContext}
    (hq : ¬ QuotaCovers c.SS pathId pqGroup config) :
    ∃ c', Release env OperationId path parent pathId pqGroup config result c = .fatal c' ∧
      c'.DB = c.DB ∧ c'.OnComplete = c.OnComplete ∧ c'.SS.PathsById = c.SS.PathsById := by
  unfold Release
  dsimp only
  split
  · exact ⟨_, rfl, rfl, rfl, rfl⟩
  rename_i d1 h1
  split
  · exact ⟨_, rfl, rfl, rfl, rfl⟩
  rename_i d2 h2
  split
  · exact ⟨_, rfl, rfl, rfl, rfl⟩
  rename_i d3 h3
  exfalso
  apply hq
  simp only [TSubDomainInfo.DecPathsInside] at h1
  split at h1
  case isFalse => cases h1
  rename_i g1
  cases h1
  simp only [TSubDomainInfo.DecPQPartitionsInside] at h2
  split at h2
  case isFalse => cases h2
  rename_i g2
  cases h2
  simp only [TSubDomainInfo.DecPQReservedStorage] at h3
  split at h3
  case isFalse => cases h3
  rename_i g3
  exact ⟨g1, g2, g3⟩

theorem Finish_fatal {OperationId : TOperationId} {path : TPath} {pathId : TPathId}
    {result : TProposeResponse} {c c' : TOperationContext}
    (h : Finish OperationId path pathId result c = .fatal c') : path.Parent.Base = none := by
  unfold Finish at h
  dsimp only at h
  split at h
  · assumption
  · cases h

theorem Release_fatal_cases {env : TEnv} {OperationId : TOperationId} {path parent : TPath}
    {pathId : TPathId} {pqGroup : TPersQueueGroupInfo} {config : TPQTabletConfig}
    {result : TProposeResponse} {c c' : TOperationContext}
    (h : Release env OperationId path parent pathId pqGroup config result c = .fatal c') :
    ¬ QuotaCovers c.SS pathId pqGroup config ∨ parent.Base = none ∨
      (∃ parentId, parent.Base = some parentId ∧
        ¬ 1 ≤ (c.SS.PathsById parentId).AliveChildrenCount) ∨
      path.Parent.Base = none := by
  unfold Release at h
  dsimp only at h
  split at h
  · rename_i h1
    left
    intro hq
    simp only [TSubDomainInfo.DecPathsInside, if_pos hq.1] at h1
    cases h1
  rename_i d1 h1
  simp only [TSubDomainInfo.DecPathsInside] at h1
  split at h1
  case isFalse => cases h1
  cases h1
  split at h
  · rename_i h2
    left
    intro hq
    simp only [TSubDomainInfo.DecPQPartitionsInside, if_pos hq.2.1] at h2
    cases h2
  rename_i d2 h2
  simp only [TSubDomainInfo.DecPQPartitionsInside] at h2
  split at h2
  case isFalse => cases h2
  cases h2
  split at h
  · rename_i h3
    left
    intro hq
    simp only [TSubDomainInfo.DecPQReservedStorage, if_pos hq.2.2] at h3
    cases h3
  rename_i d3 h3
  split at h
  · rename_i hp
    right; left
    exact hp
  rename_i parentId hp
  split at h
  · rename_i he
    right; right; left
    refine ⟨parentId, hp, ?_⟩
    intro ha
    simp only [TPathElement.DecAliveChildren] at he
    split at he
    · cases he
    · rename_i g
      exact g ha
  · right; right; right
    exact Finish_fatal h

theorem Release_of_QuotaCovers {env : TEnv} {OperationId : TOperationId} {path parent : TPath}
    {pathId parentId : TPathId} {pqGroup : TPersQueueGroupInfo} {config : TPQTabletConfig}
    {result : TProposeResponse} {c : TOperationContext}
    (hq : QuotaCovers c.SS pathId pqGroup config) (hp : parent.Base = some parentId)
    (hpd : path.Parent.Base = some parentId)
    (ha : 1 ≤ (c.SS.PathsById parentId).AliveChildrenCount) :
    Release env OperationId path parent pathId pqGroup config result c =
      .returned result
        (FinishStage OperationId pathId parentId
          (ReleaseStage env pathId parentId pqGroup config c)) := by
  cases hR : Release env OperationId path parent pathId pqGroup config result c with
  | fatal c' =>
    exfalso
    rcases Release_fatal_cases hR with h1 | h2 | ⟨p, h3, h4⟩ | h5
    · exact h1 hq
    · rw [hp] at h2
      cases h2
    · rw [hp] at h3
      cases h3
      exact h4 ha
    · rw [hpd] at h5
      cases h5
  | returned r c' =>
    obtain ⟨p1, p2, e1, e2, er, -, -, ec⟩ := Release_returned hR
    rw [hp] at e1
    cases e1
    rw [hpd] at e2
    cases e2
    rw [er, ec]

/-- The converse of `Propose_accepted`: when every guard holds, `Propose` returns the
initial (accepted) response and the accepted context. -/
theorem Propose_of_Accepts {env : TEnv} {OperationId : TOperationId}
    {Transaction : TTxTransaction} {context : TOperationContext} {pathId parentId : TPathId}
    {pqGroup : TPersQueueGroupInfo} {config : TPQTabletConfig}
    (hA : Accepts env OperationId Transaction context pathId parentId pqGroup config) :
    Propose env OperationId Transaction context =
      .returned (InitialResult OperationId context)
        (AcceptedContext env OperationId pathId parentId pqGroup config context) := by
  obtain ⟨hv, hp, hq, ha⟩ := hA
  rw [Propose_of_Validated hv]
  have hq' : QuotaCovers (DropStage env OperationId pathId context).SS pathId pqGroup config := by
    simpa [QuotaCovers, DropStage, TSchemeShard.ResolvePathIdForDomain,
      TSchemeShard.ModifyPath, TSchemeShard.SimpleSub, TPathElement.SetDropped] using hq
  have ha' : 1 ≤ ((DropStage env OperationId pathId context).SS.PathsById
      parentId).AliveChildrenCount := by
    rw [DropStage_AliveChildrenCount]
    exact ha
  rw [Release_of_QuotaCovers hq' hp hp ha']
  rfl

/-- C9, refuted as stated: in the scenario with 500 reserved bytes in the domain, below the
1000 bytes of the group, the validation passes and `Propose` does not return a rejection;
it aborts inside the storage decrement, with the path already marked dropped in memory and
the drop step already staged. -/
theorem C9_counterexample :
    ¬ QuotaCovers (Scenario.Context Scenario.Root Scenario.Topic Scenario.DomainLow false).SS
        Scenario.TopicId Scenario.Group Scenario.Config ∧
    (Propose Scenario.Env Scenario.Op Scenario.Tx
        (Scenario.Context Scenario.Root Scenario.Topic Scenario.DomainLow false)).Result? =
      none ∧
    (Propose Scenario.Env Scenario.Op Scenario.Tx
        (Scenario.Context Scenario.Root Scenario.Topic Scenario.DomainLow false)).Context.DB =
      [TDbChange.DropStep Scenario.TopicId 1700 Scenario.Op] ∧
    ((Propose Scenario.Env Scenario.Op Scenario.Tx
        (Scenario.Context Scenario.Root Scenario.Topic
          Scenario.DomainLow false)).Context.SS.PathsById Scenario.TopicId).PathState =
      EPathState.Dropped := by
  decide

/-- C9, amended: `Propose` has no quota rejection.  When the validation of lines 44-130 has
passed and one of the decrements (1 object, `TotalPartitionCount` partitions, storage `S`)
exceeds the owning domain's counter, `Propose` does not return: it aborts in the domain
decrement, after the path was marked dropped and the drop step staged.  After every
accepted `Propose` each domain counter was at least its decrement and equals the old value
minus the decrement, without wrap-around. -/
theorem C9_no_quota_rejection (env : TEnv) (OperationId : TOperationId)
    (Transaction : TTxTransaction) (context : TOperationContext)
    (hd : env.Defaults.Rejecting) :
    (∀ pathId pqGroup config,
      Validated env OperationId Transaction context pathId pqGroup config →
      ((context.SS.SubDomains (context.SS.ResolvePathIdForDomain pathId)).PathsInsideCount < 1 ∨
        (context.SS.SubDomains
          (context.SS.ResolvePathIdForDomain pathId)).PQPartitionsInsideCount <
            pqGroup.TotalPartitionCount ∨
        (context.SS.SubDomains (context.SS.ResolvePathIdForDomain pathId)).PQReservedStorage <
          Storage pqGroup config) →
      ∃ c, Propose env OperationId Transaction context = .fatal c ∧
        c.DB = context.DB ++
          [TDbChange.DropStep pathId env.AppData.NowMilliSeconds OperationId] ∧
        (c.SS.PathsById pathId).PathState = .Dropped) ∧
    (∀ r context', Propose env OperationId Transaction context = .returned r context' →
      r.Status = .StatusAccepted →
      ∃ pathId pqGroup config,
        (TargetPath context.SS Transaction).Base = some pathId ∧
        context.SS.PersQueueGroups pathId = some pqGroup ∧
        env.ParseFromStringNoSizeLimit pqGroup.TabletConfig = some config ∧
        1 ≤ (context.SS.SubDomains
          (context.SS.ResolvePathIdForDomain pathId)).PathsInsideCount ∧
        pqGroup.TotalPartitionCount ≤ (context.SS.SubDomains
          (context.SS.ResolvePathIdForDomain pathId)).PQPartitionsInsideCount ∧
        Storage pqGroup config ≤ (context.SS.SubDomains
          (context.SS.ResolvePathIdForDomain pathId)).PQReservedStorage ∧
        (context'.SS.SubDomains (context.SS.ResolvePathIdForDomain pathId)).PathsInsideCount =
          (context.SS.SubDomains
            (context.SS.ResolvePathIdForDomain pathId)).PathsInsideCount - 1 ∧
        (context'.SS.SubDomains
            (context.SS.ResolvePathIdForDomain pathId)).PQPartitionsInsideCount =
          (context.SS.SubDomains
            (context.SS.ResolvePathIdForDomain pathId)).PQPartitionsInsideCount -
              pqGroup.TotalPartitionCount ∧
        (context'.SS.SubDomains (context.SS.ResolvePathIdForDomain pathId)).PQReservedStorage =
          (context.SS.SubDomains
            (context.SS.ResolvePathIdForDomain pathId)).PQReservedStorage -
              Storage pqGroup config) := by
  constructor
  · intro pathId pqGroup config hv hunder
    have hq : ¬ QuotaCovers (DropStage env OperationId pathId context).SS pathId pqGroup
        config := by
      intro hcov
      obtain ⟨q1, q2, q3⟩ := DropStage_QuotaCovers hcov
      omega
    obtain ⟨c, hc, hdb, -, hpaths⟩ :=
      Release_fatal env OperationId (TargetPath context.SS Transaction)
        (TargetPath context.SS Transaction).Parent (InitialResult OperationId context) hq
    refine ⟨c, ?_, ?_, ?_⟩
    · rw [Propose_of_Validated hv]
      exact hc
    · rw [hdb]
      rfl
    · rw [hpaths]
      simp [DropStage, TSchemeShard.ModifyPath, TSchemeShard.SimpleSub,
        TPathElement.SetDropped]
  · intro r context' h hacc
    obtain ⟨pathId, pqGroup, config, hbase, hpq, hparse, ⟨q1, q2, q3⟩, hdom⟩ :=
      Propose_accepted_domain hd h hacc
    refine ⟨pathId, pqGroup, config, hbase, hpq, hparse, q1, q2, q3, ?_, ?_, ?_⟩ <;>
      rw [hdom]

/-- C9, amended, on the scenario with 500 reserved bytes: the run aborts with the drop step
staged. -/
theorem C9_no_quota_rejection_witness :
    ∃ c, Propose Scenario.Env Scenario.Op Scenario.Tx
        (Scenario.Context Scenario.Root Scenario.Topic Scenario.DomainLow false) = .fatal c ∧
      c.DB = [TDbChange.DropStep Scenario.TopicId 1700 Scenario.Op] ∧
      (c.SS.PathsById Scenario.TopicId).PathState = .Dropped :=
  (C9_no_quota_rejection Scenario.Env Scenario.Op Scenario.Tx
    (Scenario.Context Scenario.Root Scenario.Topic Scenario.DomainLow false)
    (by decide)).1 Scenario.TopicId Scenario.Group Scenario.Config
    ⟨by decide, by decide, by decide, by decide, by decide, by decide, by decide, by decide⟩
    (Or.inr (Or.inr (by decide)))

/-- C10. On every operation context, and for every transaction id, `ProgressState`,
`AbortPropose` and `AbortUnsafe` of the deallocate sub-operation end in the fatal outcome:
none of them returns a response, and the context at the abort is the one the call was
given, so nothing was changed before failing. -/
theorem C10_progress_and_aborts_are_fatal (context : TOperationContext) (txId : TTxId) :
    (ProgressState context = .fatal context ∧
      AbortPropose context = .fatal context ∧
      AbortUnsafe txId context = .fatal context) ∧
    ((ProgressState context).Result? = none ∧
      (AbortPropose context).Result? = none ∧
      (AbortUnsafe txId context).Result? = none) ∧
    ((ProgressState context).Context = context ∧
      (AbortPropose context).Context = context ∧
      (AbortUnsafe txId context).Context = context) :=
  ⟨⟨rfl, rfl, rfl⟩, ⟨rfl, rfl, rfl⟩, ⟨rfl, rfl, rfl⟩⟩

/-! ## The nodes after an accepted run -/

theorem AcceptedContext_target (env : TEnv) (OperationId : TOperationId)
    (pathId parentId : TPathId) (pqGroup : TPersQueueGroupInfo) (config : TPQTabletConfig)
    (context : TOperationContext) :
    ((AcceptedContext env OperationId pathId parentId pqGroup config context).SS.PathsById
        pathId).DropTxId = OperationId.TxId ∧
    ((AcceptedContext env OperationId pathId parentId pqGroup config context).SS.PathsById
        pathId).LastTxId = OperationId.TxId ∧
    ((AcceptedContext env OperationId pathId parentId pqGroup config context).SS.PathsById
        pathId).StepDropped = env.AppData.NowMilliSeconds := by
  simp only [AcceptedContext, FinishStage, ReleaseStage, DropStage, TSchemeShard.ModifyPath,
    TSchemeShard.SetDomain, TSchemeShard.SimpleSub, TPathElement.SetDropped]
  split_ifs <;> simp_all

theorem AcceptedContext_parent (env : TEnv) (OperationId : TOperationId)
    (pathId parentId : TPathId) (pqGroup : TPersQueueGroupInfo) (config : TPQTabletConfig)
    (context : TOperationContext) :
    ((AcceptedContext env OperationId pathId parentId pqGroup config context).SS.PathsById
        parentId).AliveChildrenCount = (context.SS.PathsById parentId).AliveChildrenCount - 1 ∧
    ((AcceptedContext env OperationId pathId parentId pqGroup config context).SS.PathsById
        parentId).DirAlterVersion =
      ((context.SS.PathsById parentId).DirAlterVersion + 1) % 2 ^ 64 := by
  simp only [AcceptedContext, FinishStage, ReleaseStage, DropStage, TSchemeShard.ModifyPath,
    TSchemeShard.SetDomain, TSchemeShard.SimpleSub, TPathElement.SetDropped, Ui64Size]
  split_ifs <;> simp_all

theorem AcceptedContext_other (env : TEnv) (OperationId : TOperationId)
    (pathId parentId : TPathId) (pqGroup : TPersQueueGroupInfo) (config : TPQTabletConfig)
    (context : TOperationContext) (k : TPathId) (h1 : k ≠ pathId) (h2 : k ≠ parentId) :
    (AcceptedContext env OperationId pathId parentId pqGroup config context).SS.PathsById k =
      context.SS.PathsById k := by
  simp only [AcceptedContext, FinishStage, ReleaseStage, DropStage, TSchemeShard.ModifyPath,
    TSchemeShard.SetDomain, TSchemeShard.SimpleSub, TPathElement.SetDropped]
  simp [h1, h2]

/-- The parent chain on a parent that is planned to drop: it passes exactly when the parent
is a non-empty, resolved change-data-capture stream inside a stream path and claimed by the
given transaction. -/
theorem ParentChecks_passes_under_deleting (env : TEnv) {ss : TSchemeShard} {parent : TPath}
    (txId : TTxId) {el : TPathElement}
    (hel : parent.BaseElement ss = some el) (hdel : el.PlannedToDrop = true) :
    (ParentChecks env ss parent txId).Failed = false ↔
      (parent.IsEmpty = false ∧ parent.IsResolved = true ∧ el.IsCdcStream = true ∧
        env.Facts.IsInsideCdcStreamPath ss parent = true ∧
        el.OwningTransaction = some txId) := by
  have h1 : parent.IsDeleted ss = false := by
    unfold TPath.IsDeleted
    rw [hel]
    exact PlannedToDrop_not_Dropped hdel
  have h2 : parent.IsUnderDeleting ss = true := by
    unfold TPath.IsUnderDeleting
    rw [hel]
    exact hdel
  have h3 : parent.ActiveOperation ss = el.OwningTransaction := by
    unfold TPath.ActiveOperation
    rw [hel]
  simp only [ParentChecks, TChecker.NotEmpty, TChecker.IsResolved, TChecker.NotDeleted,
    TChecker.IsCdcStream, TChecker.IsInsideCdcStreamPath, TChecker.IsUnderDeleting,
    TChecker.IsUnderTheSameOperation, TChecker.IsLikeDirectory, TChecker.IsCommonSensePath,
    TChecker.NotUnderDeleting, TChecker.Step_SS, TChecker.Step_Path, TPath.Check,
    h1, h2, h3, hel]
  generalize env.Facts.IsInsideCdcStreamPath ss parent = b1
  generalize env.Facts.IsLikeDirectory ss parent = b2
  generalize env.Facts.IsCommonSensePath ss parent = b3
  generalize parent.IsEmpty = b4
  generalize parent.IsResolved = b5
  by_cases ho : el.OwningTransaction = some txId <;>
    cases hc : el.IsCdcStream <;> cases b1 <;> cases b2 <;> cases b3 <;> cases b4 <;>
      cases b5 <;> simp [TChecker.Step, ho]

/-- C12. On a parent that is under deletion, the parent check of `Propose` passes exactly
when the parent is a (non-empty, resolved) change-data-capture stream inside a stream path
whose deletion is held by the transaction of the proposing operation; for every parent that
is not a change-data-capture stream, being under deletion makes `Propose` return a
rejection, whichever transaction deletes it, the proposing one included. -/
theorem C12_parent_deletion_relaxed_for_same_transaction_only (env : TEnv)
    (OperationId : TOperationId) (Transaction : TTxTransaction) (context : TOperationContext)
    (el : TPathElement) (hd : env.Defaults.Rejecting)
    (hel : (TargetPath context.SS Transaction).Parent.BaseElement context.SS = some el)
    (hdel : el.PlannedToDrop = true) :
    ((ParentChecks env context.SS (TargetPath context.SS Transaction).Parent
        OperationId.TxId).Failed = false ↔
      ((TargetPath context.SS Transaction).Parent.IsEmpty = false ∧
        (TargetPath context.SS Transaction).Parent.IsResolved = true ∧
        el.IsCdcStream = true ∧
        env.Facts.IsInsideCdcStreamPath context.SS
          (TargetPath context.SS Transaction).Parent = true ∧
        el.OwningTransaction = some OperationId.TxId)) ∧
    (el.IsCdcStream = false →
      ∃ r, Propose env OperationId Transaction context = .returned r context ∧
        r.Status ≠ .StatusAccepted) := by
  have hiff := ParentChecks_passes_under_deleting env OperationId.TxId hel hdel
  refine ⟨hiff, fun hkind => ?_⟩
  cases hpf : (PathChecks env context.SS (TargetPath context.SS Transaction)).Failed with
  | true =>
    refine ⟨_, Propose_of_PathChecks_failed OperationId hpf, ?_⟩
    rw [ReportPlannedDrop_Status]
    exact PathChecks_Sound hd _ _ hpf
  | false =>
    have hfail : (ParentChecks env context.SS (TargetPath context.SS Transaction).Parent
        OperationId.TxId).Failed = true := by
      cases hp : (ParentChecks env context.SS (TargetPath context.SS Transaction).Parent
        OperationId.TxId).Failed with
      | true => rfl
      | false =>
        have hcdc := (hiff.mp hp).2.2.1
        rw [hkind] at hcdc
        cases hcdc
    exact ⟨_, Propose_of_ParentChecks_failed hpf hfail, ParentChecks_Sound hd _ _ _ hfail⟩

/-- C12, on inputs: a change-data-capture stream parent deleted by the proposing transaction
9 passes the parent check, and a directory parent under deletion makes `Propose` return a
rejection. -/
theorem C12_parent_deletion_relaxed_for_same_transaction_only_witness :
    (ParentChecks Scenario.Env
        (Scenario.Context Scenario.StreamDeletingByOp Scenario.Topic Scenario.Domain false).SS
        (TargetPath
          (Scenario.Context Scenario.StreamDeletingByOp Scenario.Topic Scenario.Domain false).SS
          Scenario.Tx).Parent Scenario.Op.TxId).Failed = false ∧
    ∃ r, Propose Scenario.Env Scenario.Op Scenario.Tx
        (Scenario.Context Scenario.RootDeleting Scenario.Topic Scenario.Domain false) =
        .returned r
          (Scenario.Context Scenario.RootDeleting Scenario.Topic Scenario.Domain false) ∧
      r.Status ≠ .StatusAccepted :=
  ⟨(C12_parent_deletion_relaxed_for_same_transaction_only Scenario.Env Scenario.Op Scenario.Tx
      (Scenario.Context Scenario.StreamDeletingByOp Scenario.Topic Scenario.Domain false)
      Scenario.StreamDeletingByOp (by decide) rfl (by decide)).1.mpr
        ⟨by decide, by decide, by decide, by decide, by decide⟩,
    (C12_parent_deletion_relaxed_for_same_transaction_only Scenario.Env Scenario.Op Scenario.Tx
      (Scenario.Context Scenario.RootDeleting Scenario.Topic Scenario.Domain false)
      Scenario.RootDeleting (by decide) rfl (by decide)).2 (by decide)⟩

/-- C13, refuted as stated: the parent of the scenario carries the largest `ui64` as
directory-alteration version; the accepted run leaves it at 0, so the version is not larger
by 1 but smaller. -/
theorem C13_counterexample :
    (Propose Scenario.Env Scenario.Op Scenario.Tx
        (Scenario.Context Scenario.RootLastVersion Scenario.Topic Scenario.Domain false)).Result? =
      some { Status := .StatusAccepted, TxId := 9, SchemeShardId := 100,
             PathDropTxId := none, PathId := none } ∧
    (TargetPath
        (Scenario.Context Scenario.RootLastVersion Scenario.Topic Scenario.Domain false).SS
        Scenario.Tx).Parent.Base = some Scenario.RootId ∧
    ((Scenario.Context Scenario.RootLastVersion Scenario.Topic
        Scenario.Domain false).SS.PathsById Scenario.RootId).DirAlterVersion =
      18446744073709551615 ∧
    ((Propose Scenario.Env Scenario.Op Scenario.Tx
        (Scenario.Context Scenario.RootLastVersion Scenario.Topic
          Scenario.Domain false)).Context.SS.PathsById Scenario.RootId).DirAlterVersion = 0 := by
  decide

/-- C13, amended: after every accepted `Propose` by operation `(txId, part)` the target node
is dropped with drop-transaction id `txId`, `LastTxId = txId` and drop step equal to the
time provider's current time in milliseconds; the parent's alive-children count is smaller
by exactly 1; the parent's directory-alteration version is the old one plus 1 modulo
`2^64`, hence larger by exactly 1 whenever the old version is below the largest `ui64`; and
every node other than the target and its parent is unchanged. -/
theorem C13_accepted_propose_marks_target_and_parent (env : TEnv)
    (OperationId : TOperationId) (Transaction : TTxTransaction)
    (context context' : TOperationContext) (r : TProposeResponse)
    (hd : env.Defaults.Rejecting)
    (h : Propose env OperationId Transaction context = .returned r context')
    (hacc : r.Status = .StatusAccepted) :
    ∃ pathId parentId,
      (TargetPath context.SS Transaction).Base = some pathId ∧
      (TargetPath context.SS Transaction).Parent.Base = some parentId ∧
      (context'.SS.PathsById pathId).Dropped = true ∧
      (context'.SS.PathsById pathId).DropTxId = OperationId.TxId ∧
      (context'.SS.PathsById pathId).LastTxId = OperationId.TxId ∧
      (context'.SS.PathsById pathId).StepDropped = env.AppData.NowMilliSeconds ∧
      (context'.SS.PathsById parentId).AliveChildrenCount + 1 =
        (context.SS.PathsById parentId).AliveChildrenCount ∧
      (context'.SS.PathsById parentId).DirAlterVersion =
        ((context.SS.PathsById parentId).DirAlterVersion + 1) % 2 ^ 64 ∧
      ((context.SS.PathsById parentId).DirAlterVersion + 1 < 2 ^ 64 →
        (context'.SS.PathsById parentId).DirAlterVersion =
          (context.SS.PathsById parentId).DirAlterVersion + 1) ∧
      (∀ k, k ≠ pathId → k ≠ parentId →
        context'.SS.PathsById k = context.SS.PathsById k) := by
  obtain ⟨pathId, parentId, pqGroup, config, hA, -, hc⟩ := Propose_accepted hd h hacc
  obtain ⟨⟨hbase, -⟩, hparent, -, halive⟩ := hA
  obtain ⟨t1, t2, t3⟩ :=
    AcceptedContext_target env OperationId pathId parentId pqGroup config context
  obtain ⟨p1, p2⟩ :=
    AcceptedContext_parent env OperationId pathId parentId pqGroup config context
  refine ⟨pathId, parentId, hbase, hparent, ?_, ?_, ?_, ?_, ?_, ?_, ?_, ?_⟩
  · unfold TPathElement.Dropped
    rw [hc, AcceptedContext_PathState]
  · rw [hc]; exact t1
  · rw [hc]; exact t2
  · rw [hc]; exact t3
  · rw [hc, p1]
    exact Nat.sub_add_cancel halive
  · rw [hc]; exact p2
  · intro hlt
    rw [hc, p2]
    exact Nat.mod_eq_of_lt hlt
  · intro k h1 h2
    rw [hc]
    exact AcceptedContext_other env OperationId pathId parentId pqGroup config context k h1 h2

/-- C13, amended, on the worked scenario: the topic ends dropped by transaction 9 at step
1700, the root has no alive child left and its version went from 3 to 4. -/
theorem C13_accepted_propose_marks_target_and_parent_witness :
    ((AcceptedContext Scenario.Env Scenario.Op Scenario.TopicId Scenario.RootId Scenario.Group
        Scenario.Config
        (Scenario.Context Scenario.Root Scenario.Topic Scenario.Domain false)).SS.PathsById
      Scenario.TopicId).Dropped = true ∧
    ((AcceptedContext Scenario.Env Scenario.Op Scenario.TopicId Scenario.RootId Scenario.Group
        Scenario.Config
        (Scenario.Context Scenario.Root Scenario.Topic Scenario.Domain false)).SS.PathsById
      Scenario.RootId).DirAlterVersion = 3 + 1 := by
  obtain ⟨pathId, parentId, hb, hp, h1, -, -, -, -, -, h7, -⟩ :=
    C13_accepted_propose_marks_target_and_parent Scenario.Env Scenario.Op Scenario.Tx
      (Scenario.Context Scenario.Root Scenario.Topic Scenario.Domain false)
      (AcceptedContext Scenario.Env Scenario.Op Scenario.TopicId Scenario.RootId Scenario.Group
        Scenario.Config (Scenario.Context Scenario.Root Scenario.Topic Scenario.Domain false))
      (InitialResult Scenario.Op
        (Scenario.Context Scenario.Root Scenario.Topic Scenario.Domain false))
      (by decide) rfl rfl
  have e1 : pathId = Scenario.TopicId := (Option.some.inj hb).symm
  have e2 : parentId = Scenario.RootId := (Option.some.inj hp).symm
  subst e1 e2
  exact ⟨h1, h7 (by decide)⟩

/-! ## The cleanup toggle -/

theorem AcceptedContext_DB (env : TEnv) (OperationId : TOperationId)
    (pathId parentId : TPathId) (pqGroup : TPersQueueGroupInfo) (config : TPQTabletConfig)
    (context : TOperationContext) :
    (AcceptedContext env OperationId pathId parentId pqGroup config context).DB =
      context.DB ++
        ([TDbChange.DropStep pathId env.AppData.NowMilliSeconds OperationId] ++
          (if env.AppData.DisableSchemeShardCleanupOnDropForTest then []
            else [TDbChange.RemovePersQueueGroup pathId]) ++
          [TDbChange.RemoveUserAttributes pathId (context.SS.PathsById pathId).UserAttrs,
            TDbChange.PathDirAlterVersion parentId
              (((context.SS.PathsById parentId).DirAlterVersion + 1) % 2 ^ 64)]) := by
  simp only [AcceptedContext, FinishStage, ReleaseStage, DropStage, TSchemeShard.ModifyPath,
    TSchemeShard.SetDomain, TSchemeShard.SimpleSub, TPathElement.SetDropped, Ui64Size]
  by_cases h1 : parentId = pathId
  · subst h1
    cases env.AppData.DisableSchemeShardCleanupOnDropForTest <;> simp
  · have h2 : ¬ pathId = parentId := fun e => h1 e.symm
    cases env.AppData.DisableSchemeShardCleanupOnDropForTest <;> simp [h1, h2]

theorem AcceptedContext_SS_WithCleanupDisabled (env : TEnv) (disabled : Bool)
    (OperationId : TOperationId) (pathId parentId : TPathId) (pqGroup : TPersQueueGroupInfo)
    (config : TPQTabletConfig) (context : TOperationContext) :
    (AcceptedContext (env.WithCleanupDisabled disabled) OperationId pathId parentId pqGroup
        config context).SS =
      (AcceptedContext env OperationId pathId parentId pqGroup config context).SS := by
  simp only [AcceptedContext, FinishStage, ReleaseStage, DropStage, TEnv.WithCleanupDisabled]

theorem Accepts_WithCleanupDisabled {env : TEnv} (disabled : Bool)
    {OperationId : TOperationId} {Transaction : TTxTransaction} {context : TOperationContext}
    {pathId parentId : TPathId} {pqGroup : TPersQueueGroupInfo} {config : TPQTabletConfig}
    (h : Accepts env OperationId Transaction context pathId parentId pqGroup config) :
    Accepts (env.WithCleanupDisabled disabled) OperationId Transaction context pathId parentId
      pqGroup config := h

/-- C14. Whenever `Propose` is accepted on a state and transaction (with the test-only
toggle `DisableSchemeShardCleanupOnDropForTest` either way), it is accepted with the toggle
set and with the toggle clear, with the same response; the two runs end with the same
path tree, the same domain counters, the same tablet counters and the same completion
entries, and their staged writes are the drop step, the removal of the user attributes and
the parent's directory-alteration version in both runs, the run with the toggle clear
staging in addition the removal of the group record. -/
theorem C14_cleanup_toggle_only_skips_group_removal (env : TEnv) (disabled : Bool)
    (OperationId : TOperationId) (Transaction : TTxTransaction)
    (context c : TOperationContext) (r : TProposeResponse)
    (hd : env.Defaults.Rejecting)
    (h : Propose (env.WithCleanupDisabled disabled) OperationId Transaction context =
      .returned r c)
    (hacc : r.Status = .StatusAccepted) :
    ∃ cSet cClear pathId parentId,
      Propose (env.WithCleanupDisabled true) OperationId Transaction context =
        .returned r cSet ∧
      Propose (env.WithCleanupDisabled false) OperationId Transaction context =
        .returned r cClear ∧
      (TargetPath context.SS Transaction).Base = some pathId ∧
      (TargetPath context.SS Transaction).Parent.Base = some parentId ∧
      cSet.SS.PathsById = cClear.SS.PathsById ∧
      cSet.SS.SubDomains = cClear.SS.SubDomains ∧
      cSet.SS.TabletCounters = cClear.SS.TabletCounters ∧
      cSet.OnComplete = cClear.OnComplete ∧
      cClear.DB = context.DB ++
        [TDbChange.DropStep pathId env.AppData.NowMilliSeconds OperationId,
          TDbChange.RemovePersQueueGroup pathId,
          TDbChange.RemoveUserAttributes pathId (context.SS.PathsById pathId).UserAttrs,
          TDbChange.PathDirAlterVersion parentId
            (((context.SS.PathsById parentId).DirAlterVersion + 1) % 2 ^ 64)] ∧
      cSet.DB = context.DB ++
        [TDbChange.DropStep pathId env.AppData.NowMilliSeconds OperationId,
          TDbChange.RemoveUserAttributes pathId (context.SS.PathsById pathId).UserAttrs,
          TDbChange.PathDirAlterVersion parentId
            (((context.SS.PathsById parentId).DirAlterVersion + 1) % 2 ^ 64)] := by
  obtain ⟨pathId, parentId, pqGroup, config, hA, hr, -⟩ :=
    @Propose_accepted (env.WithCleanupDisabled disabled) OperationId Transaction context c r
      hd h hacc
  have hA0 : Accepts env OperationId Transaction context pathId parentId pqGroup config := hA
  have hss : (AcceptedContext (env.WithCleanupDisabled true) OperationId pathId parentId
      pqGroup config context).SS =
      (AcceptedContext (env.WithCleanupDisabled false) OperationId pathId parentId pqGroup
        config context).SS := by
    rw [AcceptedContext_SS_WithCleanupDisabled, AcceptedContext_SS_WithCleanupDisabled]
  have hr' : r = InitialResult OperationId context := hr
  refine ⟨AcceptedContext (env.WithCleanupDisabled true) OperationId pathId parentId pqGroup
      config context,
    AcceptedContext (env.WithCleanupDisabled false) OperationId pathId parentId pqGroup
      config context,
    pathId, parentId, ?_, ?_, hA0.1.1, hA0.2.1, ?_, ?_, ?_, ?_, ?_, ?_⟩
  · rw [hr']
    exact Propose_of_Accepts (Accepts_WithCleanupDisabled true hA0)
  · rw [hr']
    exact Propose_of_Accepts (Accepts_WithCleanupDisabled false hA0)
  · rw [hss]
  · rw [hss]
  · rw [hss]
  · rw [AcceptedContext_OnComplete, AcceptedContext_OnComplete]
  · rw [AcceptedContext_DB]
    simp [TEnv.WithCleanupDisabled]
  · rw [AcceptedContext_DB]
    simp [TEnv.WithCleanupDisabled]

/-- C14, on the worked scenario: with the toggle set the run stages three writes, with the
toggle clear the same three and the removal of the group record. -/
theorem C14_cleanup_toggle_only_skips_group_removal_witness :
    ∃ cSet cClear,
      Propose (Scenario.Env.WithCleanupDisabled true) Scenario.Op Scenario.Tx
          (Scenario.Context Scenario.Root Scenario.Topic Scenario.Domain false) =
        .returned (InitialResult Scenario.Op
          (Scenario.Context Scenario.Root Scenario.Topic Scenario.Domain false)) cSet ∧
      Propose (Scenario.Env.WithCleanupDisabled false) Scenario.Op Scenario.Tx
          (Scenario.Context Scenario.Root Scenario.Topic Scenario.Domain false) =
        .returned (InitialResult Scenario.Op
          (Scenario.Context Scenario.Root Scenario.Topic Scenario.Domain false)) cClear ∧
      cSet.SS.PathsById = cClear.SS.PathsById ∧ cSet.OnComplete = cClear.OnComplete ∧
      cClear.DB =
        [TDbChange.DropStep Scenario.TopicId 1700 Scenario.Op,
          TDbChange.RemovePersQueueGroup Scenario.TopicId,
          TDbChange.RemoveUserAttributes Scenario.TopicId [("owner", "team")],
          TDbChange.PathDirAlterVersion Scenario.RootId 4] ∧
      cSet.DB =
        [TDbChange.DropStep Scenario.TopicId 1700 Scenario.Op,
          TDbChange.RemoveUserAttributes Scenario.TopicId [("owner", "team")],
          TDbChange.PathDirAlterVersion Scenario.RootId 4] := by
  obtain ⟨cSet, cClear, pathId, parentId, h1, h2, hb, hp, hss, -, -, hoc, hdb1, hdb2⟩ :=
    C14_cleanup_toggle_only_skips_group_removal Scenario.Env false Scenario.Op Scenario.Tx
      (Scenario.Context Scenario.Root Scenario.Topic Scenario.Domain false)
      (AcceptedContext (Scenario.Env.WithCleanupDisabled false) Scenario.Op Scenario.TopicId
        Scenario.RootId Scenario.Group Scenario.Config
        (Scenario.Context Scenario.Root Scenario.Topic Scenario.Domain false))
      (InitialResult Scenario.Op
        (Scenario.Context Scenario.Root Scenario.Topic Scenario.Domain false))
      (by decide) rfl rfl
  have e1 : pathId = Scenario.TopicId := (Option.some.inj hb).symm
  have e2 : parentId = Scenario.RootId := (Option.some.inj hp).symm
  subst e1 e2
  exact ⟨cSet, cClear, h1, h2, hss, hoc, hdb1, hdb2⟩

/-- C15. For every accepted `Propose` by operation `O` the completion queue grows by a
sequence that is the publication for the parent path, the publication for the target path
and the completion of `O` when `DisablePublicationsOfDropping` is false, and the completion
of `O` alone when it is true: the completion entry of `O` is there in both cases, is the
last entry and occurs exactly once, and what the flag takes away is the two publications
and nothing else. -/
theorem C15_completion_sequence_by_publication_flag (env : TEnv)
    (OperationId : TOperationId) (Transaction : TTxTransaction)
    (context context' : TOperationContext) (r : TProposeResponse)
    (hd : env.Defaults.Rejecting)
    (h : Propose env OperationId Transaction context = .returned r context')
    (hacc : r.Status = .StatusAccepted) :
    ∃ pathId parentId appended,
      (TargetPath context.SS Transaction).Base = some pathId ∧
      (TargetPath context.SS Transaction).Parent.Base = some parentId ∧
      context'.OnComplete = context.OnComplete ++ appended ∧
      (context.SS.DisablePublicationsOfDropping = false →
        appended = [TSideEffect.PublishToSchemeBoard OperationId parentId,
          TSideEffect.PublishToSchemeBoard OperationId pathId,
          TSideEffect.DoneOperation OperationId]) ∧
      (context.SS.DisablePublicationsOfDropping = true →
        appended = [TSideEffect.DoneOperation OperationId]) ∧
      appended.getLast? = some (TSideEffect.DoneOperation OperationId) ∧
      appended.count (TSideEffect.DoneOperation OperationId) = 1 ∧
      appended.filter (fun e => decide (e ≠ TSideEffect.PublishToSchemeBoard OperationId parentId
          ∧ e ≠ TSideEffect.PublishToSchemeBoard OperationId pathId)) =
        [TSideEffect.DoneOperation OperationId] := by
  obtain ⟨pathId, parentId, pqGroup, config, hA, -, hc⟩ := Propose_accepted hd h hacc
  refine ⟨pathId, parentId,
    (if context.SS.DisablePublicationsOfDropping then []
      else [TSideEffect.PublishToSchemeBoard OperationId parentId,
        TSideEffect.PublishToSchemeBoard OperationId pathId]) ++
      [TSideEffect.DoneOperation OperationId], hA.1.1, hA.2.1, ?_, ?_, ?_, ?_, ?_, ?_⟩
  · rw [hc, AcceptedContext_OnComplete, List.append_assoc]
  · intro hflag
    rw [hflag]
    rfl
  · intro hflag
    rw [hflag]
    rfl
  · cases context.SS.DisablePublicationsOfDropping <;> simp
  · cases context.SS.DisablePublicationsOfDropping <;> simp [List.count_cons]
  · cases context.SS.DisablePublicationsOfDropping <;> simp [List.filter_cons]

/-- C15, on the worked scenario with publications enabled: three entries, the completion
of operation `(9, 0)` last. -/
theorem C15_completion_sequence_by_publication_flag_witness :
    ∃ appended,
      (AcceptedContext Scenario.Env Scenario.Op Scenario.TopicId Scenario.RootId Scenario.Group
        Scenario.Config
        (Scenario.Context Scenario.Root Scenario.Topic Scenario.Domain false)).OnComplete =
        [] ++ appended ∧
      appended = [TSideEffect.PublishToSchemeBoard Scenario.Op Scenario.RootId,
        TSideEffect.PublishToSchemeBoard Scenario.Op Scenario.TopicId,
        TSideEffect.DoneOperation Scenario.Op] := by
  obtain ⟨pathId, parentId, appended, hb, hp, happ, hoff, -⟩ :=
    C15_completion_sequence_by_publication_flag Scenario.Env Scenario.Op Scenario.Tx
      (Scenario.Context Scenario.Root Scenario.Topic Scenario.Domain false)
      (AcceptedContext Scenario.Env Scenario.Op Scenario.TopicId Scenario.RootId Scenario.Group
        Scenario.Config (Scenario.Context Scenario.Root Scenario.Topic Scenario.Domain false))
      (InitialResult Scenario.Op
        (Scenario.Context Scenario.Root Scenario.Topic Scenario.Domain false))
      (by decide) rfl rfl
  have e1 : pathId = Scenario.TopicId := (Option.some.inj hb).symm
  have e2 : parentId = Scenario.RootId := (Option.some.inj hp).symm
  subst e1 e2
  exact ⟨appended, happ, hoff rfl⟩

end TDeallocatePQ

end NKikimr.NSchemeShard

namespace NKikimr.NFlatTxCoordinator

/-! ## The hooks slot and its guard -/

/-- While the process lives, the slot holds the hooks of the one live guard, or nothing
when no guard is live. -/
theorem TGuards.Step_invariant {g g' : TGuards} {event : TGuardEvent}
    (hinv : g.Live.length ≤ 1 ∧ ICoordinatorHooks.Get g.Slot = g.Live.head?)
    (hstep : g.Step event = some g') :
    g'.Live.length ≤ 1 ∧ ICoordinatorHooks.Get g'.Slot = g'.Live.head? := by
  obtain ⟨hlen, hslot⟩ := hinv
  cases event with
  | construct hooks =>
    unfold TGuards.Step TCoordinatorHooksGuard.Construct at hstep
    dsimp only at hstep
    cases hget : ICoordinatorHooks.Get g.Slot with
    | some current =>
      rw [hget] at hstep
      cases hstep
    | none =>
      rw [hget] at hstep
      cases hstep
      have hnil : g.Live = [] := by
        rw [hget] at hslot
        cases hl : g.Live with
        | nil => rfl
        | cons a t =>
          rw [hl] at hslot
          cases hslot
      rw [hnil]
      exact ⟨Nat.le_refl 1, rfl⟩
  | destroy position =>
    unfold TGuards.Step at hstep
    dsimp only at hstep
    split at hstep
    · rename_i hpos
      cases hstep
      cases hl : g.Live with
      | nil =>
        rw [hl] at hpos
        cases hpos
      | cons a t =>
        rw [hl] at hlen hpos
        have ht : t = [] := by
          cases t with
          | nil => rfl
          | cons b u =>
            simp only [List.length_cons] at hlen
            omega
        subst ht
        have hzero : position = 0 := by
          simp only [List.length_cons, List.length_nil] at hpos
          omega
        subst hzero
        exact ⟨Nat.zero_le 1, rfl⟩
    · cases hstep

theorem TGuards.Run_invariant (events : List TGuardEvent) :
    ∀ g g' : TGuards,
      (g.Live.length ≤ 1 ∧ ICoordinatorHooks.Get g.Slot = g.Live.head?) →
      g.Run events = some g' →
      g'.Live.length ≤ 1 ∧ ICoordinatorHooks.Get g'.Slot = g'.Live.head? := by
  induction events with
  | nil =>
    intro g g' hinv hrun
    unfold TGuards.Run at hrun
    cases hrun
    exact hinv
  | cons event events ih =>
    intro g g' hinv hrun
    unfold TGuards.Run at hrun
    cases hstep : g.Step event with
    | none =>
      rw [hstep] at hrun
      cases hrun
    | some g1 =>
      rw [hstep] at hrun
      exact ih g1 g' (TGuards.Step_invariant hinv hstep) hrun

/-- C11. Constructing a `TCoordinatorHooksGuard` aborts the process if and only if
`ICoordinatorHooks::Get()` is non-null; when it is null the construction succeeds and
`Get()` then returns the given hooks object, and destroying the guard makes `Get()` return
null again.  Hence after every sequence of guard constructions and destructions that
starts from the empty slot, at most one guard is live, and the slot holds the hooks of
that guard, or null when none is live. -/
theorem C11_hooks_guard_installs_at_most_one (slot : TSlot) (hooks : THooks)
    (events : List TGuardEvent) :
    (TCoordinatorHooksGuard.Construct slot hooks = none ↔
      ICoordinatorHooks.Get slot ≠ none) ∧
    (ICoordinatorHooks.Get slot = none →
      ∃ slot', TCoordinatorHooksGuard.Construct slot hooks = some slot' ∧
        ICoordinatorHooks.Get slot' = some hooks ∧
        ICoordinatorHooks.Get (TCoordinatorHooksGuard.Destroy slot') = none) ∧
    ICoordinatorHooks.Get (TCoordinatorHooksGuard.Destroy slot) = none ∧
    (∀ g, TGuards.Start.Run events = some g →
      g.Live.length ≤ 1 ∧ ICoordinatorHooks.Get g.Slot = g.Live.head?) := by
  refine ⟨?_, ?_, rfl, ?_⟩
  · unfold TCoordinatorHooksGuard.Construct
    dsimp only
    cases hget : ICoordinatorHooks.Get slot with
    | none => simp
    | some current => simp
  · intro hget
    unfold TCoordinatorHooksGuard.Construct
    dsimp only
    rw [hget]
    exact ⟨_, rfl, rfl, rfl⟩
  · intro g hrun
    exact TGuards.Run_invariant events TGuards.Start g ⟨Nat.zero_le 1, rfl⟩ hrun

/-- C11, on inputs: on the empty slot a guard for the hooks object 5 installs it; after
constructing a guard for 5, destroying it and constructing a guard for 6, the one live
guard is that for 6 and the slot holds 6. -/
theorem C11_hooks_guard_installs_at_most_one_witness :
    (∃ slot', TCoordinatorHooksGuard.Construct TSlot.Empty 5 = some slot' ∧
      ICoordinatorHooks.Get slot' = some 5 ∧
      ICoordinatorHooks.Get (TCoordinatorHooksGuard.Destroy slot') = none) ∧
    TGuards.Start.Run [.construct 5, .destroy 0, .construct 6] =
      some { Slot := { CoordinatorHooks := some 6 }, Live := [6] } ∧
    ([6] : List THooks).length ≤ 1 :=
  ⟨(C11_hooks_guard_installs_at_most_one TSlot.Empty 5
      [.construct 5, .destroy 0, .construct 6]).2.1 rfl,
    rfl,
    ((C11_hooks_guard_installs_at_most_one TSlot.Empty 5
      [.construct 5, .destroy 0, .construct 6]).2.2.2
        { Slot := { CoordinatorHooks := some 6 }, Live := [6] } rfl).1⟩

end NKikimr.NFlatTxCoordinator
